import Mathlib

/-!
Shallow embedding of the solar ephemeris module
(`src/lib/astronomy/solar.ts`, concatenated after the `SolarPosition`
interface of `src/lib/astronomy/types.ts`) of the fatcat/ephemeris
repository, together with proofs about the claims C1-C10.

Conventions of the embedding:
* A JavaScript `Date` is modelled by the record of its UTC field view
  (`getUTCFullYear`, `getUTCMonth`, ..., `getUTCMilliseconds`), each an
  integer.  An instant that appears as a raw millisecond timestamp
  (`Date.UTC`, `date.getTime`, `new Date(ms)`) is modelled as a real (or
  integer) number of milliseconds since the Unix epoch; the conversions
  between the two views implement the proleptic-Gregorian civil-calendar
  algorithms that ECMA-262 prescribes for `Date.UTC` and the `getUTC*`
  accessors.
* JavaScript numbers are modelled by exact arithmetic: the purely
  rational part of the pipeline (Julian Day, centuries, the degree
  polynomials, their `normalizeDeg` reductions) lives in `ℚ` and is
  computable; everything that goes through transcendental functions
  lives in `ℝ`.
* The JavaScript remainder `%` truncates towards zero; `Math.floor`,
  `Math.round`, `Math.max`/`Math.min` clamps and the conditional
  branches are modelled literally.
-/

namespace Ephemeris

/-- UTC field view of a JavaScript `Date`:
`year = getUTCFullYear()`, `month = getUTCMonth()` (0-based),
`day = getUTCDate()`, `hour/minute/second/ms` likewise. -/
structure Date where
  year : ℤ
  month : ℤ
  day : ℤ
  hour : ℤ
  minute : ℤ
  second : ℤ
  ms : ℤ
deriving DecidableEq, Repr

/-- Truncation towards zero on `ℚ` (the rounding JavaScript `%` uses). -/
def qtrunc (x : ℚ) : ℤ := if 0 ≤ x then ⌊x⌋ else ⌈x⌉

/-- JavaScript `x % y` (fmod, sign of the dividend) on exact rationals. -/
def jsModQ (x y : ℚ) : ℚ := x - y * (qtrunc (x / y))

/-- `normalizeDeg(deg) = ((deg % 360) + 360) % 360`, on the exact
rational values that flow through the degree polynomials. -/
def normalizeDeg (deg : ℚ) : ℚ := jsModQ (jsModQ deg 360 + 360) 360

/-- Truncation towards zero on `ℝ` (ECMA-262 `ToIntegerOrInfinity`,
used by `new Date(ms)` for a fractional millisecond argument, and by
the JavaScript `%` on numbers). -/
noncomputable def jsTruncR (x : ℝ) : ℤ := if 0 ≤ x then ⌊x⌋ else ⌈x⌉

/-- JavaScript `x % y` on real values. -/
noncomputable def jsModR (x y : ℝ) : ℝ := x - y * (jsTruncR (x / y))

/-- `normalizeDeg` at its real-valued use site (the bisection loop of
`findEquinoxOrSolstice`). -/
noncomputable def normalizeDegR (deg : ℝ) : ℝ :=
  jsModR (jsModR deg 360 + 360) 360

/-- `Math.round` (round half towards positive infinity). -/
noncomputable def jsRound (x : ℝ) : ℤ := ⌊x + 1/2⌋

/-- `DEG_TO_RAD = Math.PI / 180`. -/
noncomputable def DEG_TO_RAD : ℝ := Real.pi / 180

/-- `RAD_TO_DEG = 180 / Math.PI`. -/
noncomputable def RAD_TO_DEG : ℝ := 180 / Real.pi

/-- `J2000 = 2451545.0`, the J2000.0 epoch as a Julian Day Number. -/
def J2000 : ℚ := 2451545

/-- `MIN_JD = J2000 - 200 * 365.25`. -/
def MIN_JD : ℚ := J2000 - 200 * 365.25

/-- `MAX_JD = J2000 + 200 * 365.25`. -/
def MAX_JD : ℚ := J2000 + 200 * 365.25

/-- `julianDay(date)`: Meeus Gregorian-calendar Julian Day Number of a
`Date`, read off its UTC fields.  All values are exact decimals, so the
result is an exact rational. -/
def julianDay (date : Date) : ℚ :=
  let y := date.year
  let m := date.month + 1
  let d := date.day
  let dayFraction : ℚ :=
    ((date.hour : ℚ) + ((date.minute : ℚ) +
      ((date.second : ℚ) + (date.ms : ℚ) / 1000) / 60) / 60) / 24
  let Y : ℤ := if m ≤ 2 then y - 1 else y
  let M : ℤ := if m ≤ 2 then m + 12 else m
  let A : ℤ := ⌊(Y : ℚ) / 100⌋
  let B : ℤ := 2 - A + ⌊(A : ℚ) / 4⌋
  (⌊(365.25 : ℚ) * ((Y : ℚ) + 4716)⌋ : ℚ) +
    (⌊(30.6001 : ℚ) * ((M : ℚ) + 1)⌋ : ℚ) +
    (d : ℚ) + dayFraction + (B : ℚ) - 1524.5

/-- `greenwichMeanSiderealTime(jd)`: Meeus eq. 12.4, degrees normalized
to `[0, 360)`.  Purely rational in the Julian Day. -/
def greenwichMeanSiderealTime (jd : ℚ) : ℚ :=
  let T := (jd - J2000) / 36525
  normalizeDeg (280.46061837 + 360.98564736629 * (jd - J2000) +
    0.000387933 * T * T - (T * T * T) / 38710000)

/-! ### The `solarPosition` pipeline

The body of `solarPosition` is a straight-line sequence of `const`
bindings; each becomes a top-level definition named after the source
variable, so the theorems can speak about the intermediate values. -/

/-- `clampedJd = Math.max(MIN_JD, Math.min(MAX_JD, jd))`. -/
def clampedJd (date : Date) : ℚ := max MIN_JD (min MAX_JD (julianDay date))

/-- `T = (clampedJd - J2000) / 36525.0`, centuries since J2000. -/
def Tcent (date : Date) : ℚ := (clampedJd date - J2000) / 36525

/-- `L0`: solar mean longitude in degrees, normalized. -/
def L0deg (date : Date) : ℚ :=
  normalizeDeg (280.46646 + 36000.76983 * Tcent date +
    0.0003032 * Tcent date * Tcent date)

/-- `M_deg`: solar mean anomaly in degrees, normalized. -/
def Mdeg (date : Date) : ℚ :=
  normalizeDeg (357.52911 + 35999.05029 * Tcent date -
    0.0001537 * Tcent date * Tcent date)

/-- `M = M_deg * DEG_TO_RAD`. -/
noncomputable def Mrad (date : Date) : ℝ := (Mdeg date : ℝ) * DEG_TO_RAD

/-- `C`: equation of center in degrees. -/
noncomputable def eqCenterC (date : Date) : ℝ :=
  ((1.914602 : ℚ) - 0.004817 * Tcent date -
      0.000014 * Tcent date * Tcent date : ℚ) * Real.sin (Mrad date) +
    ((0.019993 : ℚ) - 0.000101 * Tcent date : ℚ) * Real.sin (2 * Mrad date) +
    0.000289 * Real.sin (3 * Mrad date)

/-- `theta = L0 + C`: true longitude in degrees. -/
noncomputable def thetaDeg (date : Date) : ℝ := (L0deg date : ℝ) + eqCenterC date

/-- `eps0`: mean obliquity of the ecliptic in degrees (cubic in T). -/
def eps0deg (date : Date) : ℚ :=
  23.439291 - 0.013004 * Tcent date - 1.64e-7 * Tcent date * Tcent date +
    5.04e-7 * Tcent date * Tcent date * Tcent date

/-- `omega_deg = normalizeDeg(125.04 - 1934.136 * T)`. -/
def omegaDeg (date : Date) : ℚ := normalizeDeg (125.04 - 1934.136 * Tcent date)

/-- `omega = omega_deg * DEG_TO_RAD`. -/
noncomputable def omegaRad (date : Date) : ℝ := (omegaDeg date : ℝ) * DEG_TO_RAD

/-- `eps_deg = eps0 + 0.00256 * Math.cos(omega)`: corrected obliquity
in degrees. -/
noncomputable def epsDeg (date : Date) : ℝ :=
  (eps0deg date : ℝ) + 0.00256 * Real.cos (omegaRad date)

/-- `eps = eps_deg * DEG_TO_RAD`. -/
noncomputable def epsRad (date : Date) : ℝ := epsDeg date * DEG_TO_RAD

/-- `lambda_deg = theta - 0.00569 - 0.00478 * Math.sin(omega)`:
apparent longitude in degrees. -/
noncomputable def lambdaDeg (date : Date) : ℝ :=
  thetaDeg date - 0.00569 - 0.00478 * Real.sin (omegaRad date)

/-- `lambda = lambda_deg * DEG_TO_RAD`. -/
noncomputable def lambdaRad (date : Date) : ℝ := lambdaDeg date * DEG_TO_RAD

/-- `Math.atan2(y, x)` with the ECMA-262 quadrant conventions
(`atan2(0, 0) = 0`; negative zero is not modelled). -/
noncomputable def atan2 (y x : ℝ) : ℝ :=
  if 0 < x then Real.arctan (y / x)
  else if x < 0 then
    (if 0 ≤ y then Real.arctan (y / x) + Real.pi
     else Real.arctan (y / x) - Real.pi)
  else
    (if 0 < y then Real.pi / 2 else if y < 0 then -(Real.pi / 2) else 0)

/-- Output record of `solarPosition` (the `SolarPosition` interface):
declination, right ascension, apparent longitude and obliquity, all in
radians. -/
structure SolarPosition where
  declination : ℝ
  rightAscension : ℝ
  apparentLongitude : ℝ
  obliquity : ℝ

/-- `solarPosition(date)`: Meeus medium-precision solar position. -/
noncomputable def solarPosition (date : Date) : SolarPosition where
  declination := Real.arcsin (Real.sin (epsRad date) * Real.sin (lambdaRad date))
  rightAscension :=
    atan2 (Real.cos (epsRad date) * Real.sin (lambdaRad date))
      (Real.cos (lambdaRad date))
  apparentLongitude := lambdaRad date
  obliquity := epsRad date

/-! ### Civil-calendar conversions (ECMA-262 `Date.UTC` / `getUTC*`)

`Date.UTC` and `new Date(ms)` convert between calendar fields and epoch
milliseconds.  The standard prescribes the proleptic Gregorian
calendar; `daysFromCivil`/`civilFromDays` are the usual era-based
algorithms for it. -/

/-- Days since the Unix epoch of a civil date (`m` is 1-based here). -/
def daysFromCivil (y m d : ℤ) : ℤ :=
  let y1 := if m ≤ 2 then y - 1 else y
  let era := Int.fdiv y1 400
  let yoe := y1 - era * 400
  let doy := (153 * (if 2 < m then m - 3 else m + 9) + 2) / 5 + d - 1
  let doe := yoe * 365 + yoe / 4 - yoe / 100 + doy
  era * 146097 + doe - 719468

/-- Civil date `(year, month 1-based, day)` of a count of days since
the Unix epoch. -/
def civilFromDays (z0 : ℤ) : ℤ × ℤ × ℤ :=
  let z := z0 + 719468
  let era := Int.fdiv z 146097
  let doe := z - era * 146097
  let yoe := (doe - doe / 1460 + doe / 36524 - doe / 146096) / 365
  let y := yoe + era * 400
  let doy := doe - (365 * yoe + yoe / 4 - yoe / 100)
  let mp := (5 * doy + 2) / 153
  let d := doy - (153 * mp + 2) / 5 + 1
  let m := if mp < 10 then mp + 3 else mp - 9
  (if m ≤ 2 then y + 1 else y, m, d)

/-- `Date.UTC(year, month0, day, hour, 0, 0)` in epoch milliseconds
(`month0` is the 0-based month the source passes). -/
def utcMs (y month0 d h : ℤ) : ℤ :=
  daysFromCivil y (month0 + 1) d * 86400000 + h * 3600000

/-- `new Date(ms)` for an integral millisecond timestamp: the UTC field
view of the instant. -/
def dateFromMs (ms : ℤ) : Date :=
  let days := Int.fdiv ms 86400000
  let rem := ms - 86400000 * days
  let c := civilFromDays days
  ⟨c.1, c.2.1 - 1, c.2.2, rem / 3600000, rem % 3600000 / 60000,
    rem % 60000 / 1000, rem % 1000⟩

/-! ### Sun direction vector -/

/-- Minimal model of a three.js `Vector3`. -/
structure Vector3 where
  x : ℝ
  y : ℝ
  z : ℝ

/-- `v.length()`. -/
noncomputable def Vector3.length (v : Vector3) : ℝ :=
  Real.sqrt (v.x ^ 2 + v.y ^ 2 + v.z ^ 2)

/-- `v.normalize() = v.divideScalar(v.length() || 1)`. -/
noncomputable def Vector3.normalize (v : Vector3) : Vector3 :=
  let l := if v.length = 0 then 1 else v.length
  ⟨v.x / l, v.y / l, v.z / l⟩

/-- GMST of a date, converted to radians
(`greenwichMeanSiderealTime(jd) * DEG_TO_RAD`). -/
noncomputable def gmstRad (date : Date) : ℝ :=
  (greenwichMeanSiderealTime (julianDay date) : ℝ) * DEG_TO_RAD

/-- `hourAngle = gmst - rightAscension` (sun direction path). -/
noncomputable def hourAngleOf (date : Date) : ℝ :=
  gmstRad date - (solarPosition date).rightAscension

/-- `sunDirectionVector(date)`: unit sun direction in the fixed
geographic frame. -/
noncomputable def sunDirectionVector (date : Date) : Vector3 :=
  let declination := (solarPosition date).declination
  let cosDec := Real.cos declination
  Vector3.normalize
    ⟨cosDec * Real.cos (hourAngleOf date), Real.sin declination,
      cosDec * Real.sin (hourAngleOf date)⟩

/-! ### Observer elevation/azimuth -/

/-- Hour angle seen by an observer:
`localSiderealTime - rightAscension` with
`localSiderealTime = gmst + lonDeg * DEG_TO_RAD`. -/
noncomputable def obsHourAngle (date : Date) (lonDeg : ℝ) : ℝ :=
  gmstRad date + lonDeg * DEG_TO_RAD - (solarPosition date).rightAscension

/-- The raw `sinElev` expression of `sunElevationAzimuth`, before the
clamp. -/
noncomputable def sinElevRaw (date : Date) (latDeg lonDeg : ℝ) : ℝ :=
  Real.sin (latDeg * DEG_TO_RAD) * Real.sin (solarPosition date).declination +
    Real.cos (latDeg * DEG_TO_RAD) * Real.cos (solarPosition date).declination *
      Real.cos (obsHourAngle date lonDeg)

/-- The clamped argument `Math.max(-1, Math.min(1, sinElev))` fed to
`Math.asin` in `sunElevationAzimuth`. -/
noncomputable def clampedSinElev (date : Date) (latDeg lonDeg : ℝ) : ℝ :=
  max (-1) (min 1 (sinElevRaw date latDeg lonDeg))

/-- `sunElevationAzimuth(date, latDeg, lonDeg)`:
`(elevation, azimuth)` in degrees. -/
noncomputable def sunElevationAzimuth (date : Date) (latDeg lonDeg : ℝ) :
    ℝ × ℝ :=
  let declination := (solarPosition date).declination
  let lat := latDeg * DEG_TO_RAD
  let hourAngle := obsHourAngle date lonDeg
  let elevation := Real.arcsin (clampedSinElev date latDeg lonDeg) * RAD_TO_DEG
  let cosElev := Real.cos (elevation * DEG_TO_RAD)
  let azimuth :=
    if cosElev < 1e-10 then 0
    else
      let sinAz := (-Real.cos declination * Real.sin hourAngle) / cosElev
      let cosAz := (Real.sin declination - Real.sin lat *
        (clampedSinElev date latDeg lonDeg)) / (Real.cos lat * cosElev)
      let az := atan2 sinAz cosAz * RAD_TO_DEG
      if az < 0 then az + 360 else az
  (elevation, azimuth)

/-! ### Equation of time and sunrise/sunset -/

/-- The unclamped centuries value used inside `equationOfTime`
(it recomputes `T` from the raw `julianDay`, without the clamp). -/
def eotTcent (date : Date) : ℚ := (julianDay date - J2000) / 36525

/-- The `L0` recomputed inside `equationOfTime` (degrees). -/
def eotL0deg (date : Date) : ℚ :=
  normalizeDeg (280.46646 + 36000.76983 * eotTcent date +
    0.0003032 * eotTcent date * eotTcent date)

/-- `equationOfTime(date)` in minutes.  The two `while` loops of the
source subtract/add `2π` until the value lies in `[-π, π]`; since
`raAdj ∈ [0, 2π)` (range of `atan2`, shifted) and
`L0rad ∈ [0, 2π)` (range of `normalizeDeg`, scaled), the difference
lies in `(-2π, 2π)` and each loop runs at most once, so a single
conditional step is exact. -/
noncomputable def equationOfTime (date : Date) : ℝ :=
  let ra := (solarPosition date).rightAscension
  let raAdj := if ra < 0 then ra + 2 * Real.pi else ra
  let eot := (eotL0deg date : ℝ) * DEG_TO_RAD - raAdj
  let e1 := if Real.pi < eot then eot - 2 * Real.pi else eot
  let e2 := if e1 < -Real.pi then e1 + 2 * Real.pi else e1
  e2 * (720 / Real.pi)

/-- The noon `Date` that `sunriseSunset` builds from the query's UTC
calendar day: `new Date(Date.UTC(y, m, d, 12, 0, 0))`. -/
def noonOf (date : Date) : Date :=
  ⟨date.year, date.month, date.day, 12, 0, 0, 0⟩

/-- Declination evaluated at local noon UTC of the calendar day. -/
noncomputable def declNoon (date : Date) : ℝ :=
  (solarPosition (noonOf date)).declination

/-- `eotMinutes = equationOfTime(noon)`. -/
noncomputable def eotMinutes (date : Date) : ℝ := equationOfTime (noonOf date)

/-- `solarNoonMinutes = 720 - lonDeg * 4 - eotMinutes`, minutes from
UTC midnight. -/
noncomputable def solarNoonMinutes (date : Date) (lonDeg : ℝ) : ℝ :=
  720 - lonDeg * 4 - eotMinutes date

/-- UTC midnight of the query's calendar day
(`Date.UTC(y, m, d)`), in epoch milliseconds. -/
def baseDateMs (date : Date) : ℤ := utcMs date.year date.month date.day 0

/-- The returned `solarNoon` instant:
midnight shifted by `setUTCMinutes(Math.round(solarNoonMinutes))`. -/
noncomputable def solarNoonMs (date : Date) (lonDeg : ℝ) : ℝ :=
  (baseDateMs date : ℝ) + (jsRound (solarNoonMinutes date lonDeg) : ℝ) * 60000

/-- `sinCorr = Math.sin(-0.833 * DEG_TO_RAD)`: the -0.833 degree
refraction plus solar-disc correction. -/
noncomputable def sinCorr : ℝ := Real.sin (-0.833 * DEG_TO_RAD)

/-- `denominator = Math.cos(lat) * Math.cos(declination)`. -/
noncomputable def ssDenominator (date : Date) (latDeg : ℝ) : ℝ :=
  Real.cos (latDeg * DEG_TO_RAD) * Real.cos (declNoon date)

/-- `cosHA = (sinCorr - sin(lat) * sin(declination)) / denominator`. -/
noncomputable def cosHA (date : Date) (latDeg : ℝ) : ℝ :=
  (sinCorr - Real.sin (latDeg * DEG_TO_RAD) * Real.sin (declNoon date)) /
    ssDenominator date latDeg

/-- `haMinutes = Math.acos(cosHA) * RAD_TO_DEG * 4`. -/
noncomputable def haMinutes (date : Date) (latDeg : ℝ) : ℝ :=
  Real.arccos (cosHA date latDeg) * RAD_TO_DEG * 4

/-- Output record of `sunriseSunset`.  `sunrise`/`sunset` are the
millisecond timestamps of the constructed `Date`s (or `none` for polar
day/night); `solarNoon` a millisecond timestamp; `dayLength` hours. -/
structure SunTimes where
  sunrise : Option ℝ
  sunset : Option ℝ
  solarNoon : ℝ
  dayLength : ℝ

/-- `sunriseSunset(date, latDeg, lonDeg)`. -/
noncomputable def sunriseSunset (date : Date) (latDeg lonDeg : ℝ) : SunTimes :=
  if |ssDenominator date latDeg| < 1e-10 then
    if sinCorr < Real.sin (latDeg * DEG_TO_RAD) * Real.sin (declNoon date) then
      ⟨none, none, solarNoonMs date lonDeg, 24⟩
    else ⟨none, none, solarNoonMs date lonDeg, 0⟩
  else if cosHA date latDeg < -1 then ⟨none, none, solarNoonMs date lonDeg, 24⟩
  else if 1 < cosHA date latDeg then ⟨none, none, solarNoonMs date lonDeg, 0⟩
  else
    ⟨some ((baseDateMs date : ℝ) +
        (solarNoonMinutes date lonDeg - haMinutes date latDeg) * 60000),
      some ((baseDateMs date : ℝ) +
        (solarNoonMinutes date lonDeg + haMinutes date latDeg) * 60000),
      solarNoonMs date lonDeg,
      2 * haMinutes date latDeg / 60⟩

/-! ### Equinox/solstice finder -/

/-- `angleDiff(a, b)`: signed angular difference in `[-180, 180]`. -/
noncomputable def angleDiff (a b : ℝ) : ℝ :=
  let d := jsModR (jsModR (a - b) 360 + 360) 360
  if 180 < d then d - 360 else d

/-- The `approx` lookup table of `findEquinoxOrSolstice`
(`approx[targetLongitude] ?? [2, 20]`): 0-based month and day. -/
def approx (targetLongitude : ℚ) : ℤ × ℤ :=
  if targetLongitude = 0 then (2, 20)
  else if targetLongitude = 90 then (5, 21)
  else if targetLongitude = 180 then (8, 22)
  else if targetLongitude = 270 then (11, 21)
  else (2, 20)

/-- `THREE_DAYS_MS = 3 * 24 * 60 * 60 * 1000`. -/
def THREE_DAYS_MS : ℤ := 259200000

/-- The seeded window center
`Date.UTC(year, month, day, 12, 0, 0)` in epoch milliseconds. -/
def centerMs (year : ℤ) (targetLongitude : ℚ) : ℤ :=
  utcMs year (approx targetLongitude).1 (approx targetLongitude).2 12

/-- One iteration of the bisection loop: evaluate the apparent
longitude at the bracket midpoint and reassign `lo`/`hi` by the sign of
the signed angular difference to the target. -/
noncomputable def bisectStep (targetLongitude : ℚ) (p : ℝ × ℝ) : ℝ × ℝ :=
  let mid := (p.1 + p.2) / 2
  let pos := solarPosition (dateFromMs (jsTruncR mid))
  let lonDeg := normalizeDegR (pos.apparentLongitude * RAD_TO_DEG)
  let diff := angleDiff lonDeg (targetLongitude : ℝ)
  if diff < 0 then (mid, p.2) else (p.1, mid)

/-- `findEquinoxOrSolstice(year, targetLongitude)`: the returned
instant (`new Date((lo + hi) / 2)`) as an epoch-millisecond value. -/
noncomputable def findEquinoxOrSolstice (year : ℤ) (targetLongitude : ℚ) : ℝ :=
  let c := (centerMs year targetLongitude : ℝ)
  let p := (bisectStep targetLongitude)^[25]
    (c - (THREE_DAYS_MS : ℝ), c + (THREE_DAYS_MS : ℝ))
  ((jsTruncR ((p.1 + p.2) / 2) : ℤ) : ℝ)

/-- Modelled from the spec: the tilt-parameterized
`solarPosition(instant, tiltDeg)` (default 23.44) that the repository's
callers (`Orrery.svelte` passes `solarPosition(time, tilt)`) and the
spec describe, but which is absent from the solar module snapshot under
`src/`.  Following section 4.5 of the spec, the caller-supplied
`tiltDeg` is substituted as the reference obliquity in place of the
hard-coded `eps0` polynomial, and the periodic `0.00256 cos Ω`
obliquity correction is scaled proportionally (`tiltDeg / 23.44`); the
rest of the pipeline is unchanged. -/
noncomputable def solarPositionTilt (date : Date) (tiltDeg : ℝ) : SolarPosition :=
  let epsDegT : ℝ :=
    tiltDeg + 0.00256 * (tiltDeg / 23.44) * Real.cos (omegaRad date)
  let epsT : ℝ := epsDegT * DEG_TO_RAD
  { declination := Real.arcsin (Real.sin epsT * Real.sin (lambdaRad date))
    rightAscension :=
      atan2 (Real.cos epsT * Real.sin (lambdaRad date))
        (Real.cos (lambdaRad date))
    apparentLongitude := lambdaRad date
    obliquity := epsT }

/-- 1800-06-21T12:00:00Z, a June solstice day near the lower edge of
the clamped range, where the mean obliquity polynomial evaluates to
about 23.4652 degrees. -/
def juneDate1800 : Date := ⟨1800, 5, 21, 12, 0, 0, 0⟩

/-- 2000-01-01T12:00:00Z, the J2000.0 epoch (centuries value exactly
zero). -/
def j2000Noon : Date := ⟨2000, 0, 1, 12, 0, 0, 0⟩

/-! ## Theorems -/

/-- Evaluation rule for `normalizeDeg` when the enclosing multiple of
360 is known. -/
theorem normalizeDeg_eval (x : ℚ) (k : ℤ) (h1 : 360 * (k : ℚ) ≤ x)
    (h2 : x < 360 * ((k : ℚ) + 1)) : normalizeDeg x = x - 360 * k := by
  have h360 : (0 : ℚ) < 360 := by norm_num
  unfold normalizeDeg jsModQ qtrunc
  by_cases hx : 0 ≤ x
  · have hfl : ⌊x / 360⌋ = k := by
      rw [Int.floor_eq_iff]
      constructor
      · rw [le_div_iff₀ h360]; linarith
      · rw [div_lt_iff₀ h360]; linarith
    rw [if_pos (by positivity : (0:ℚ) ≤ x / 360), hfl]
    have hfl2 : ⌊(x - 360 * (k : ℚ) + 360) / 360⌋ = 1 := by
      rw [Int.floor_eq_iff]
      constructor
      · rw [le_div_iff₀ h360]; push_cast; linarith
      · rw [div_lt_iff₀ h360]; push_cast; linarith
    rw [if_pos, hfl2]
    · push_cast; ring
    · rw [le_div_iff₀ h360]; linarith
  · push_neg at hx
    rcases eq_or_lt_of_le h1 with heq | hlt
    · have hq : x / 360 = (k : ℚ) := by rw [← heq]; field_simp
      have hkneg : (k : ℚ) < 0 := by
        by_contra hk
        push_neg at hk
        nlinarith
      have hce : ⌈x / 360⌉ = k := by rw [hq]; exact Int.ceil_intCast k
      rw [if_neg (by rw [hq]; exact not_le.mpr hkneg), hce]
      have h0 : x - 360 * (k : ℚ) = 0 := by linarith
      rw [h0]
      norm_num
    · have hce : ⌈x / 360⌉ = k + 1 := by
        rw [Int.ceil_eq_iff]
        constructor
        · push_cast; rw [lt_div_iff₀ h360]; linarith
        · push_cast; rw [div_le_iff₀ h360]; linarith
      rw [if_neg (by rw [not_le, div_neg_iff]; right; exact ⟨hx, h360⟩), hce]
      have hfl2 : ⌊(x - 360 * ((k + 1 : ℤ) : ℚ) + 360) / 360⌋ = 0 := by
        rw [Int.floor_eq_iff]
        constructor
        · push_cast; rw [le_div_iff₀ h360]; linarith
        · push_cast; rw [div_lt_iff₀ h360]; linarith
      rw [if_pos, hfl2]
      · push_cast; ring
      · rw [le_div_iff₀ h360]; push_cast; linarith

/-- Two-sided Taylor bounds for sine on `[0, 1]`, from `Real.sin_bound`. -/
theorem sin_sandwich (x lo hi : ℝ) (h0 : 0 ≤ lo) (h1 : lo ≤ x) (h2 : x ≤ hi)
    (h3 : hi ≤ 1) :
    lo - hi ^ 3 / 6 - hi ^ 4 * (5 / 96) ≤ Real.sin x ∧
    Real.sin x ≤ hi - lo ^ 3 / 6 + hi ^ 4 * (5 / 96) := by
  have hx0 : 0 ≤ x := le_trans h0 h1
  have hxa : |x| ≤ 1 := by rw [abs_of_nonneg hx0]; linarith
  have hb := Real.sin_bound hxa
  obtain ⟨hb1, hb2⟩ := abs_le.mp hb
  have habs4 : |x| ^ 4 = x ^ 4 := by
    rw [← abs_pow, abs_of_nonneg (by positivity)]
  rw [habs4] at hb1 hb2
  have h3a : x ^ 3 ≤ hi ^ 3 := pow_le_pow_left₀ hx0 h2 3
  have h3b : lo ^ 3 ≤ x ^ 3 := pow_le_pow_left₀ h0 h1 3
  have h4a : x ^ 4 ≤ hi ^ 4 := pow_le_pow_left₀ hx0 h2 4
  have h4b : 0 ≤ x ^ 4 := by positivity
  constructor <;> nlinarith

/-- Quadratic-with-error lower bound for cosine, from `Real.cos_bound`. -/
theorem cos_sandwich_lb (x b : ℝ) (h1 : |x| ≤ b) (h2 : b ≤ 1) :
    1 - b ^ 2 / 2 - b ^ 4 * (5 / 96) ≤ Real.cos x := by
  have hxa : |x| ≤ 1 := le_trans h1 h2
  have hb := Real.cos_bound hxa
  obtain ⟨hb1, _⟩ := abs_le.mp hb
  have h2a : x ^ 2 ≤ b ^ 2 := by
    have := sq_abs x
    nlinarith [abs_nonneg x]
  have h4a : |x| ^ 4 ≤ b ^ 4 := pow_le_pow_left₀ (abs_nonneg x) h1 4
  have habs4 : |x| ^ 4 = x ^ 4 := by
    rw [← abs_pow, abs_of_nonneg (by positivity)]
  rw [habs4] at h4a hb1
  nlinarith

/-- Cast a rational degree interval to a real radian interval, using
the six-digit bounds on pi. -/
theorem radQ_bounds (q lo hi : ℚ) (h1 : lo ≤ q) (h2 : q ≤ hi) (h0 : 0 ≤ lo) :
    (lo : ℝ) * (3.141592 / 180) ≤ (q : ℝ) * (Real.pi / 180) ∧
    (q : ℝ) * (Real.pi / 180) ≤ (hi : ℝ) * (3.141593 / 180) := by
  have hq1 : (lo : ℝ) ≤ (q : ℝ) := by exact_mod_cast h1
  have hq2 : (q : ℝ) ≤ (hi : ℝ) := by exact_mod_cast h2
  have hq0 : (0 : ℝ) ≤ (lo : ℝ) := by exact_mod_cast h0
  have p1 := Real.pi_gt_d6
  have p2 := Real.pi_lt_d6
  constructor <;> nlinarith

/-- Interval product, both factors nonnegative. -/
theorem mul_bounds_pos (a b alo ahi blo bhi : ℝ) (ha1 : alo ≤ a) (ha2 : a ≤ ahi)
    (hb1 : blo ≤ b) (hb2 : b ≤ bhi) (h0a : 0 ≤ alo) (h0b : 0 ≤ blo) :
    alo * blo ≤ a * b ∧ a * b ≤ ahi * bhi := by
  constructor <;> nlinarith

/-- Interval product, nonnegative times nonpositive. -/
theorem mul_bounds_pos_neg (a b alo ahi blo bhi : ℝ) (ha1 : alo ≤ a)
    (ha2 : a ≤ ahi) (hb1 : blo ≤ b) (hb2 : b ≤ bhi) (h0a : 0 ≤ alo)
    (hbneg : bhi ≤ 0) :
    ahi * blo ≤ a * b ∧ a * b ≤ alo * bhi := by
  constructor <;> nlinarith

/-- Reduction `sin θ = sin (q * π/180)` when `q * π/180 = nπ - θ` with
`n` odd. -/
theorem sin_reduce_odd (θ : ℝ) (q : ℚ) (n : ℤ) (hodd : Odd n)
    (h : (q : ℝ) * (Real.pi / 180) = (n : ℝ) * Real.pi - θ) :
    Real.sin θ = Real.sin ((q : ℝ) * (Real.pi / 180)) := by
  rw [h, Real.sin_int_mul_pi_sub, Odd.neg_one_zpow hodd]
  ring

/-- Reduction `sin θ = -sin (q * π/180)` when `q * π/180 = nπ - θ` with
`n` even. -/
theorem sin_reduce_even (θ : ℝ) (q : ℚ) (n : ℤ) (heven : Even n)
    (h : (q : ℝ) * (Real.pi / 180) = (n : ℝ) * Real.pi - θ) :
    Real.sin θ = -Real.sin ((q : ℝ) * (Real.pi / 180)) := by
  rw [h, Real.sin_int_mul_pi_sub, Even.neg_one_zpow heven]
  ring

/-- Sine bounds for an angle given in degrees by a rational in a known
interval. -/
theorem sin_deg_bounds (q lo hi : ℚ) (rlo rhi : ℝ)
    (h1 : lo ≤ q) (h2 : q ≤ hi) (h0 : 0 ≤ lo)
    (hrlo : rlo ≤ (lo : ℝ) * (3.141592 / 180))
    (hrhi : (hi : ℝ) * (3.141593 / 180) ≤ rhi)
    (hrlo0 : 0 ≤ rlo) (hrhi1 : rhi ≤ 1) :
    rlo - rhi ^ 3 / 6 - rhi ^ 4 * (5 / 96) ≤
      Real.sin ((q : ℝ) * (Real.pi / 180)) ∧
    Real.sin ((q : ℝ) * (Real.pi / 180)) ≤
      rhi - rlo ^ 3 / 6 + rhi ^ 4 * (5 / 96) := by
  obtain ⟨ha, hb⟩ := radQ_bounds q lo hi h1 h2 h0
  exact sin_sandwich _ rlo rhi hrlo0 (le_trans hrlo ha) (le_trans hb hrhi) hrhi1

/-- Julian Day of 1800-06-21T12:00:00Z. -/
theorem julianDay_juneDate1800 : julianDay juneDate1800 = 2378668 := by
  norm_num [julianDay, juneDate1800]

/-- Centuries value of 1800-06-21T12:00:00Z (not clamped: the instant
is inside the supported range). -/
theorem Tcent_juneDate1800 : Tcent juneDate1800 = -72877 / 36525 := by
  norm_num [Tcent, clampedJd, MIN_JD, MAX_JD, J2000, julianDay_juneDate1800]

/-- Mean longitude at 1800-06-21T12:00:00Z, to six decimals. -/
theorem L0deg_juneDate1800 :
    (894450 / 10000 : ℚ) ≤ L0deg juneDate1800 ∧
      L0deg juneDate1800 ≤ 89445001 / 1000000 := by
  have h : L0deg juneDate1800 =
      (280.46646 + 36000.76983 * (-72877 / 36525 : ℚ) +
        0.0003032 * (-72877 / 36525) * (-72877 / 36525)) -
        360 * ((-199 : ℤ) : ℚ) := by
    unfold L0deg
    rw [Tcent_juneDate1800]
    exact normalizeDeg_eval _ (-199) (by norm_num) (by norm_num)
  rw [h]
  norm_num

/-- Mean anomaly at 1800-06-21T12:00:00Z, to six decimals. -/
theorem Mdeg_juneDate1800 :
    (169936766 / 1000000 : ℚ) ≤ Mdeg juneDate1800 ∧
      Mdeg juneDate1800 ≤ 169936767 / 1000000 := by
  have h : Mdeg juneDate1800 =
      (357.52911 + 35999.05029 * (-72877 / 36525 : ℚ) -
        0.0001537 * (-72877 / 36525) * (-72877 / 36525)) -
        360 * ((-199 : ℤ) : ℚ) := by
    unfold Mdeg
    rw [Tcent_juneDate1800]
    exact normalizeDeg_eval _ (-199) (by norm_num) (by norm_num)
  rw [h]
  norm_num

/-- Ascending-node angle at 1800-06-21T12:00:00Z, to six decimals. -/
theorem omegaDeg_juneDate1800 :
    (24150999 / 1000000 : ℚ) ≤ omegaDeg juneDate1800 ∧
      omegaDeg juneDate1800 ≤ 24151 / 1000 := by
  have h : omegaDeg juneDate1800 =
      (125.04 - 1934.136 * (-72877 / 36525 : ℚ)) - 360 * ((11 : ℤ) : ℚ) := by
    unfold omegaDeg
    rw [Tcent_juneDate1800]
    exact normalizeDeg_eval _ 11 (by norm_num) (by norm_num)
  rw [h]
  norm_num

/-- At 1800-06-21 the mean obliquity polynomial is at least
23.465232 degrees. -/
theorem eps0deg_juneDate1800 :
    (23465232 / 1000000 : ℚ) ≤ eps0deg juneDate1800 := by
  unfold eps0deg
  rw [Tcent_juneDate1800]
  norm_num

/-- Julian Day of J2000.0 noon. -/
theorem julianDay_j2000Noon : julianDay j2000Noon = 2451545 := by
  norm_num [julianDay, j2000Noon]

/-- The centuries value vanishes exactly at J2000.0 noon. -/
theorem Tcent_j2000Noon : Tcent j2000Noon = 0 := by
  norm_num [Tcent, clampedJd, MIN_JD, MAX_JD, J2000, julianDay_j2000Noon]

/-- Mean longitude at J2000.0 noon (exact). -/
theorem L0deg_j2000Noon : L0deg j2000Noon = 28046646 / 100000 := by
  have h : L0deg j2000Noon =
      (280.46646 + 36000.76983 * (0 : ℚ) + 0.0003032 * 0 * 0) -
        360 * ((0 : ℤ) : ℚ) := by
    unfold L0deg
    rw [Tcent_j2000Noon]
    exact normalizeDeg_eval _ 0 (by norm_num) (by norm_num)
  rw [h]
  norm_num

/-- Mean anomaly at J2000.0 noon (exact). -/
theorem Mdeg_j2000Noon : Mdeg j2000Noon = 35752911 / 100000 := by
  have h : Mdeg j2000Noon =
      (357.52911 + 35999.05029 * (0 : ℚ) - 0.0001537 * 0 * 0) -
        360 * ((0 : ℤ) : ℚ) := by
    unfold Mdeg
    rw [Tcent_j2000Noon]
    exact normalizeDeg_eval _ 0 (by norm_num) (by norm_num)
  rw [h]
  norm_num

/-- Ascending-node angle at J2000.0 noon (exact). -/
theorem omegaDeg_j2000Noon : omegaDeg j2000Noon = 12504 / 100 := by
  have h : omegaDeg j2000Noon =
      (125.04 - 1934.136 * (0 : ℚ)) - 360 * ((0 : ℤ) : ℚ) := by
    unfold omegaDeg
    rw [Tcent_j2000Noon]
    exact normalizeDeg_eval _ 0 (by norm_num) (by norm_num)
  rw [h]
  norm_num

/-- The clamped Julian Day stays between `MIN_JD` and `MAX_JD`. -/
theorem clampedJd_mem (d : Date) :
    MIN_JD ≤ clampedJd d ∧ clampedJd d ≤ MAX_JD := by
  refine ⟨le_max_left _ _, max_le (by norm_num [MIN_JD, MAX_JD, J2000]) (min_le_left _ _)⟩

/-- The centuries value is clamped to `[-2, 2]`. -/
theorem Tcent_bounds (d : Date) : -2 ≤ Tcent d ∧ Tcent d ≤ 2 := by
  obtain ⟨h1, h2⟩ := clampedJd_mem d
  rw [MIN_JD, J2000] at h1
  rw [MAX_JD, J2000] at h2
  norm_num at h1 h2
  unfold Tcent
  rw [J2000]
  constructor <;> [linarith [h1]; linarith [h2]]

/-- Bounds for the mean obliquity polynomial on the clamped range. -/
theorem eps0deg_bounds (d : Date) :
    23.4132 ≤ eps0deg d ∧ eps0deg d ≤ 23.4654 := by
  obtain ⟨h1, h2⟩ := Tcent_bounds d
  set T := Tcent d with hT
  have hsq : T * T ≤ 4 := by nlinarith
  have hsq0 : 0 ≤ T * T := mul_self_nonneg T
  have hcub1 : T * T * T ≤ 8 := by nlinarith
  have hcub2 : -8 ≤ T * T * T := by nlinarith
  unfold eps0deg
  rw [← hT]
  constructor <;> [nlinarith; nlinarith]

/-- Bounds for the corrected obliquity in degrees. -/
theorem epsDeg_bounds (d : Date) :
    23.41 ≤ epsDeg d ∧ epsDeg d ≤ 23.468 := by
  obtain ⟨h1, h2⟩ := eps0deg_bounds d
  have hc1 := Real.neg_one_le_cos (omegaRad d)
  have hc2 := Real.cos_le_one (omegaRad d)
  have h1R : ((234132 / 10000 : ℚ) : ℝ) ≤ ((eps0deg d : ℚ) : ℝ) := by
    exact_mod_cast (by linarith : (234132 / 10000 : ℚ) ≤ eps0deg d)
  have h2R : ((eps0deg d : ℚ) : ℝ) ≤ ((234654 / 10000 : ℚ) : ℝ) := by
    exact_mod_cast (by linarith : eps0deg d ≤ (234654 / 10000 : ℚ))
  push_cast at h1R h2R
  unfold epsDeg
  constructor <;> nlinarith

/-- Bounds for the corrected obliquity in radians: it lies strictly
between 0.4085 and 0.4096 (in particular within `(0, π/2)`). -/
theorem epsRad_bounds (d : Date) :
    0.4085 ≤ epsRad d ∧ epsRad d ≤ 0.4096 := by
  obtain ⟨h1, h2⟩ := epsDeg_bounds d
  have hp1 := Real.pi_gt_d6
  have hp2 := Real.pi_lt_d6
  unfold epsRad DEG_TO_RAD
  constructor <;> nlinarith

/-- The obliquity in radians is below `π/2`. -/
theorem epsRad_lt_pi_div_two (d : Date) : epsRad d < Real.pi / 2 := by
  have h := (epsRad_bounds d).2
  have hp1 := Real.pi_gt_d6
  nlinarith

/-- Core declination bound: `|declination| ≤ obliquity` for every date. -/
theorem abs_declination_le_epsRad (d : Date) :
    |(solarPosition d).declination| ≤ epsRad d := by
  have hb := epsRad_bounds d
  have hπ := epsRad_lt_pi_div_two d
  have hsin_nonneg : 0 ≤ Real.sin (epsRad d) := by
    apply Real.sin_nonneg_of_nonneg_of_le_pi
    · linarith [hb.1]
    · have := Real.pi_gt_d6; nlinarith [hb.2]
  have hsl1 := Real.neg_one_le_sin (lambdaRad d)
  have hsl2 := Real.sin_le_one (lambdaRad d)
  have hse1 := Real.sin_le_one (epsRad d)
  set s := Real.sin (epsRad d) * Real.sin (lambdaRad d) with hs
  have habs : |s| ≤ Real.sin (epsRad d) := by
    rw [hs, abs_mul]
    have hsl : |Real.sin (lambdaRad d)| ≤ 1 :=
      abs_le.mpr ⟨Real.neg_one_le_sin _, Real.sin_le_one _⟩
    calc |Real.sin (epsRad d)| * |Real.sin (lambdaRad d)|
        ≤ |Real.sin (epsRad d)| * 1 :=
          mul_le_mul_of_nonneg_left hsl (abs_nonneg _)
    _ = |Real.sin (epsRad d)| := mul_one _
    _ = Real.sin (epsRad d) := abs_of_nonneg hsin_nonneg
  have hs1 : -1 ≤ s := by
    have h := neg_abs_le s
    linarith [le_trans habs hse1]
  have hs2 : s ≤ 1 := le_trans (le_abs_self s) (le_trans habs hse1)
  have heps_mem : epsRad d ∈ Set.Icc (-(Real.pi / 2)) (Real.pi / 2) := by
    constructor
    · have := Real.pi_gt_d6; nlinarith [hb.1]
    · linarith
  show |Real.arcsin s| ≤ epsRad d
  rw [abs_le]
  constructor
  · have hup : Real.arcsin (-s) ≤ epsRad d := by
      have hns : -s ≤ Real.sin (epsRad d) := le_trans (neg_le_abs s) habs
      exact (Real.arcsin_le_iff_le_sin ⟨by linarith, by linarith⟩ heps_mem).2 hns
    rw [Real.arcsin_neg] at hup
    linarith
  · have hss : s ≤ Real.sin (epsRad d) := le_trans (le_abs_self s) habs
    exact (Real.arcsin_le_iff_le_sin ⟨hs1, hs2⟩ heps_mem).2 hss

/-- Quadratic lower bound for cosine on small arguments. -/
theorem cos_ge_of_abs_le (x : ℝ) (h : |x| ≤ 0.41) : 0.91 ≤ Real.cos x := by
  have h1 : |x| ≤ 1 := le_trans h (by norm_num)
  have hb := Real.cos_bound h1
  have hlo := (abs_le.mp hb).1
  have hx2 : x ^ 2 ≤ 0.41 ^ 2 := by
    have := sq_abs x
    nlinarith [abs_nonneg x]
  have hx4 : |x| ^ 4 ≤ 0.41 ^ 4 := by
    have := pow_le_pow_left₀ (abs_nonneg x) h 4
    simpa using this
  nlinarith

/-- The noon declination is at most 0.4096 rad in magnitude. -/
theorem abs_declNoon_le (d : Date) : |declNoon d| ≤ 0.4096 :=
  le_trans (abs_declination_le_epsRad (noonOf d)) (epsRad_bounds (noonOf d)).2

/-- The cosine of the noon declination is at least 0.91. -/
theorem cos_declNoon_ge (d : Date) : 0.91 ≤ Real.cos (declNoon d) :=
  cos_ge_of_abs_le _ (le_trans (abs_declNoon_le d) (by norm_num))

/-- The refraction correction constant is tiny: `|sinCorr| ≤ 0.0146`. -/
theorem abs_sinCorr_le : |sinCorr| ≤ 0.0146 := by
  have hp2 := Real.pi_lt_d6
  have hp1 := Real.pi_gt_d6
  have hx : (0 : ℝ) < 0.833 * DEG_TO_RAD := by
    unfold DEG_TO_RAD; positivity
  have hx2 : 0.833 * DEG_TO_RAD ≤ 0.0146 := by
    unfold DEG_TO_RAD; nlinarith
  have hs1 : Real.sin (0.833 * DEG_TO_RAD) < 0.833 * DEG_TO_RAD :=
    Real.sin_lt hx
  have hs0 : 0 ≤ Real.sin (0.833 * DEG_TO_RAD) := by
    apply Real.sin_nonneg_of_nonneg_of_le_pi (le_of_lt hx)
    nlinarith
  have : sinCorr = -Real.sin (0.833 * DEG_TO_RAD) := by
    rw [sinCorr, ← Real.sin_neg]; norm_num
  rw [this, abs_neg, abs_of_nonneg hs0]
  linarith

/-- At the equator (`latDeg = 0`) all three guards of the main
sunrise/sunset branch hold, for every date. -/
theorem equator_main_branch (d : Date) :
    1e-10 ≤ |ssDenominator d 0| ∧ -1 ≤ cosHA d 0 ∧ cosHA d 0 ≤ 1 := by
  have hden : ssDenominator d 0 = Real.cos (declNoon d) := by
    simp [ssDenominator]
  have hcd := cos_declNoon_ge d
  have h1 : 1e-10 ≤ |ssDenominator d 0| := by
    rw [hden, abs_of_nonneg (by linarith)]
    linarith
  have hHA : cosHA d 0 = sinCorr / Real.cos (declNoon d) := by
    simp [cosHA, hden]
  have habs : |cosHA d 0| ≤ 1 := by
    rw [hHA, abs_div, abs_of_nonneg (by linarith : (0:ℝ) ≤ Real.cos (declNoon d))]
    rw [div_le_one (by linarith)]
    linarith [abs_sinCorr_le]
  exact ⟨h1, (abs_le.mp habs).1, (abs_le.mp habs).2⟩

/-- Helper: explicit form of `sunriseSunset` in the main branch
(sun both rises and sets). -/
theorem sunriseSunset_main_eq (d : Date) (latDeg lonDeg : ℝ)
    (h1 : 1e-10 ≤ |ssDenominator d latDeg|)
    (h2 : -1 ≤ cosHA d latDeg) (h3 : cosHA d latDeg ≤ 1) :
    sunriseSunset d latDeg lonDeg =
      ⟨some ((baseDateMs d : ℝ) +
          (solarNoonMinutes d lonDeg - haMinutes d latDeg) * 60000),
        some ((baseDateMs d : ℝ) +
          (solarNoonMinutes d lonDeg + haMinutes d latDeg) * 60000),
        solarNoonMs d lonDeg,
        2 * haMinutes d latDeg / 60⟩ := by
  unfold sunriseSunset
  rw [if_neg (not_lt.mpr h1), if_neg (not_lt.mpr h2), if_neg (not_lt.mpr h3)]

/-- Final arithmetic step of the solstice counterexample: a product of
sines close to 1 exceeds a smaller sine. -/
theorem product_exceeds_helper (se sl sd : ℝ) (h1 : 0.000356 ≤ se - sd)
    (h2 : 0.99999 ≤ sl) (h3 : se ≤ 1) (h4 : 0 ≤ se) : sd < se * sl := by
  nlinarith

/-- C1 (amended): for every Instant the declination magnitude is
bounded by the obliquity returned for the same instant (which tracks
the Meeus polynomial plus nutation, not the fixed constant 23.44
degrees). -/
theorem declination_le_obliquity (d : Date) :
    |(solarPosition d).declination| ≤ (solarPosition d).obliquity :=
  abs_declination_le_epsRad d

set_option maxHeartbeats 1000000 in
/-- C1 (counterexample): at 1800-06-21T12:00:00Z the declination
exceeds `23.44 * π/180 + 1e-6` radians, because the mean obliquity
polynomial evaluates to about 23.4652 degrees near the lower edge of
the clamped range; the fixed-tilt bound of the claim fails there. -/
theorem declination_exceeds_fixed_tilt_bound :
    ¬ (|(solarPosition juneDate1800).declination| ≤
        23.44 * (Real.pi / 180) + 1e-6) := by
  have hp1 := Real.pi_gt_d6
  have hp2 := Real.pi_lt_d6
  obtain ⟨hM1, hM2⟩ := Mdeg_juneDate1800
  obtain ⟨hL1, hL2⟩ := L0deg_juneDate1800
  obtain ⟨hW1, hW2⟩ := omegaDeg_juneDate1800
  have hE0 := eps0deg_juneDate1800
  -- sin M
  have hredM : Real.sin (Mrad juneDate1800) =
      Real.sin (((180 - Mdeg juneDate1800 : ℚ) : ℝ) * (Real.pi / 180)) :=
    sin_reduce_odd _ _ 1 ⟨0, by ring⟩
      (by unfold Mrad DEG_TO_RAD; push_cast; ring)
  have hsM := sin_deg_bounds (180 - Mdeg juneDate1800) (10063233 / 1000000)
    (10063234 / 1000000) 0.1756365 0.1756366 (by linarith) (by linarith)
    (by norm_num) (by norm_num) (by norm_num) (by norm_num) (by norm_num)
  have hsM1 : (0.174683 : ℝ) ≤ Real.sin (Mrad juneDate1800) := by
    rw [hredM]; exact le_trans (by norm_num) hsM.1
  have hsM2 : Real.sin (Mrad juneDate1800) ≤ 0.174784 := by
    rw [hredM]; exact le_trans hsM.2 (by norm_num)
  -- sin 2M
  have hred2 : Real.sin (2 * Mrad juneDate1800) =
      -Real.sin (((360 - 2 * Mdeg juneDate1800 : ℚ) : ℝ) * (Real.pi / 180)) :=
    sin_reduce_even _ _ 2 ⟨1, by ring⟩
      (by unfold Mrad DEG_TO_RAD; push_cast; ring)
  have hs2 := sin_deg_bounds (360 - 2 * Mdeg juneDate1800) (20126466 / 1000000)
    (20126468 / 1000000) 0.3512730 0.3512733 (by linarith) (by linarith)
    (by norm_num) (by norm_num) (by norm_num) (by norm_num) (by norm_num)
  have hs2M1 : (-0.344843 : ℝ) ≤ Real.sin (2 * Mrad juneDate1800) := by
    rw [hred2]
    have := le_trans hs2.2 (by norm_num : (0.3512733 : ℝ) - 0.3512730 ^ 3 / 6 +
      0.3512733 ^ 4 * (5 / 96) ≤ 0.344843)
    linarith
  have hs2M2 : Real.sin (2 * Mrad juneDate1800) ≤ -0.343255 := by
    rw [hred2]
    have := le_trans (by norm_num : (0.343255 : ℝ) ≤ 0.3512730 - 0.3512733 ^ 3 / 6 -
      0.3512733 ^ 4 * (5 / 96)) hs2.1
    linarith
  -- sin 3M
  have hred3 : Real.sin (3 * Mrad juneDate1800) =
      Real.sin (((540 - 3 * Mdeg juneDate1800 : ℚ) : ℝ) * (Real.pi / 180)) :=
    sin_reduce_odd _ _ 3 ⟨1, by ring⟩
      (by unfold Mrad DEG_TO_RAD; push_cast; ring)
  have hs3 := sin_deg_bounds (540 - 3 * Mdeg juneDate1800) (30189699 / 1000000)
    (30189702 / 1000000) 0.5269095 0.5269098 (by linarith) (by linarith)
    (by norm_num) (by norm_num) (by norm_num) (by norm_num) (by norm_num)
  have hs3M1 : (0.498513 : ℝ) ≤ Real.sin (3 * Mrad juneDate1800) := by
    rw [hred3]; exact le_trans (by norm_num) hs3.1
  have hs3M2 : Real.sin (3 * Mrad juneDate1800) ≤ 0.506544 := by
    rw [hred3]; exact le_trans hs3.2 (by norm_num)
  -- sin omega
  have hromega : omegaRad juneDate1800 =
      ((omegaDeg juneDate1800 : ℚ) : ℝ) * (Real.pi / 180) := rfl
  have hsw := sin_deg_bounds (omegaDeg juneDate1800) (24150999 / 1000000)
    (24151 / 1000) 0.4215143 0.4215146 hW1 hW2
    (by norm_num) (by norm_num) (by norm_num) (by norm_num) (by norm_num)
  have hsw1 : (0.407388 : ℝ) ≤ Real.sin (omegaRad juneDate1800) := by
    rw [hromega]; exact le_trans (by norm_num) hsw.1
  have hsw2 : Real.sin (omegaRad juneDate1800) ≤ 0.410677 := by
    rw [hromega]; exact le_trans hsw.2 (by norm_num)
  -- equation of center bounds
  have hc1lo : (1.924157 : ℝ) ≤
      ((1.914602 - 0.004817 * Tcent juneDate1800 -
        0.000014 * Tcent juneDate1800 * Tcent juneDate1800 : ℚ) : ℝ) := by
    rw [Tcent_juneDate1800]; push_cast; norm_num
  have hc1hi : ((1.914602 - 0.004817 * Tcent juneDate1800 -
      0.000014 * Tcent juneDate1800 * Tcent juneDate1800 : ℚ) : ℝ) ≤
        1.924158 := by
    rw [Tcent_juneDate1800]; push_cast; norm_num
  have hc2lo : (0.020194 : ℝ) ≤
      ((0.019993 - 0.000101 * Tcent juneDate1800 : ℚ) : ℝ) := by
    rw [Tcent_juneDate1800]; push_cast; norm_num
  have hc2hi : ((0.019993 - 0.000101 * Tcent juneDate1800 : ℚ) : ℝ) ≤
      0.020195 := by
    rw [Tcent_juneDate1800]; push_cast; norm_num
  have hCeq : eqCenterC juneDate1800 =
      ((1.914602 - 0.004817 * Tcent juneDate1800 -
        0.000014 * Tcent juneDate1800 * Tcent juneDate1800 : ℚ) : ℝ) *
          Real.sin (Mrad juneDate1800) +
        ((0.019993 - 0.000101 * Tcent juneDate1800 : ℚ) : ℝ) *
          Real.sin (2 * Mrad juneDate1800) +
        0.000289 * Real.sin (3 * Mrad juneDate1800) := rfl
  have hp1m := mul_bounds_pos _ _ 1.924157 1.924158 0.174683 0.174784
    hc1lo hc1hi hsM1 hsM2 (by norm_num) (by norm_num)
  have hp2m := mul_bounds_pos_neg _ _ 0.020194 0.020195 (-0.344843) (-0.343255)
    hc2lo hc2hi hs2M1 hs2M2 (by norm_num) (by norm_num)
  have hp3lo : (0.000289 : ℝ) * 0.498513 ≤
      0.000289 * Real.sin (3 * Mrad juneDate1800) :=
    mul_le_mul_of_nonneg_left hs3M1 (by norm_num)
  have hp3hi : (0.000289 : ℝ) * Real.sin (3 * Mrad juneDate1800) ≤
      0.000289 * 0.506544 :=
    mul_le_mul_of_nonneg_left hs3M2 (by norm_num)
  obtain ⟨hp1a, hp1b⟩ := hp1m
  obtain ⟨hp2a, hp2b⟩ := hp2m
  have hCb1 : (0.3292 : ℝ) ≤ eqCenterC juneDate1800 := by
    rw [hCeq]; linarith only [hp1a, hp2a, hp3lo]
  have hCb2 : eqCenterC juneDate1800 ≤ 0.3296 := by
    rw [hCeq]; linarith only [hp1b, hp2b, hp3hi]
  -- lambda bounds
  have hLR1 : (894450 / 10000 : ℝ) ≤ ((L0deg juneDate1800 : ℚ) : ℝ) := by
    have h := (Rat.cast_le (K := ℝ)).mpr hL1
    push_cast at h
    convert h using 2
  have hLR2 : ((L0deg juneDate1800 : ℚ) : ℝ) ≤ 89445001 / 1000000 := by
    have h := (Rat.cast_le (K := ℝ)).mpr hL2
    push_cast at h
    convert h using 2
  have hlameq : lambdaDeg juneDate1800 =
      ((L0deg juneDate1800 : ℚ) : ℝ) + eqCenterC juneDate1800 - 0.00569 -
        0.00478 * Real.sin (omegaRad juneDate1800) := rfl
  have hlam1 : (89.7664 : ℝ) ≤ lambdaDeg juneDate1800 := by
    rw [hlameq]; linarith only [hLR1, hCb1, hsw2]
  have hlam2 : lambdaDeg juneDate1800 ≤ 89.7671 := by
    rw [hlameq]; linarith only [hLR2, hCb2, hsw1]
  -- sin lambda close to 1
  have hueq : Real.pi / 2 - lambdaRad juneDate1800 =
      (90 - lambdaDeg juneDate1800) * (Real.pi / 180) := by
    unfold lambdaRad DEG_TO_RAD; ring
  have hpim := mul_bounds_pos (90 - lambdaDeg juneDate1800) (Real.pi / 180)
    0.2329 0.2336 (3.141592 / 180) (3.141593 / 180)
    (by linarith only [hlam2]) (by linarith only [hlam1])
    (by linarith only [hp1]) (by linarith only [hp2])
    (by norm_num) (by norm_num)
  have hub : |Real.pi / 2 - lambdaRad juneDate1800| ≤ 0.0041 := by
    rw [hueq, abs_of_nonneg (by linarith only [hpim.1])]
    linarith only [hpim.2]
  have hcosu := cos_sandwich_lb _ 0.0041 hub (by norm_num)
  have hsinlam : (0.99999 : ℝ) ≤ Real.sin (lambdaRad juneDate1800) := by
    have hc := Real.cos_pi_div_two_sub (lambdaRad juneDate1800)
    rw [← hc]
    linarith only [hcosu]
  have hsinlam1 : Real.sin (lambdaRad juneDate1800) ≤ 1 := Real.sin_le_one _
  -- obliquity bounds
  have hεeq : epsRad juneDate1800 =
      (((eps0deg juneDate1800 : ℚ) : ℝ) +
        0.00256 * Real.cos (omegaRad juneDate1800)) * (Real.pi / 180) := rfl
  have hE0R : (23465232 / 1000000 : ℝ) ≤ ((eps0deg juneDate1800 : ℚ) : ℝ) := by
    have h := (Rat.cast_le (K := ℝ)).mpr hE0
    push_cast at h
    convert h using 2
  have hcw := Real.neg_one_le_cos (omegaRad juneDate1800)
  have hcw1 := Real.cos_le_one (omegaRad juneDate1800)
  have hE0hi : ((eps0deg juneDate1800 : ℚ) : ℝ) ≤ 234654 / 10000 := by
    have h := (Rat.cast_le (K := ℝ)).mpr (eps0deg_bounds juneDate1800).2
    push_cast at h
    convert h using 2
    norm_num
  have hεm := mul_bounds_pos
    (((eps0deg juneDate1800 : ℚ) : ℝ) +
      0.00256 * Real.cos (omegaRad juneDate1800)) (Real.pi / 180)
    23.462672 23.468 (3.141592 / 180) (3.141593 / 180)
    (by linarith only [hE0R, hcw]) (by linarith only [hE0hi, hcw1])
    (by linarith only [hp1]) (by linarith only [hp2])
    (by norm_num) (by norm_num)
  have hε1 : (0.409500 : ℝ) ≤ epsRad juneDate1800 := by
    rw [hεeq]; linarith only [hεm.1]
  have hε2 : epsRad juneDate1800 ≤ 0.4096 := (epsRad_bounds juneDate1800).2
  -- the fixed-tilt bound
  set D : ℝ := 23.44 * (Real.pi / 180) + 1e-6 with hD
  have hD1 : (0.409106 : ℝ) ≤ D := by rw [hD]; linarith only [hp1]
  have hD2 : D ≤ 0.409107 := by rw [hD]; linarith only [hp2]
  -- sin eps - sin D via sum-to-product
  have hidm := Real.sin_sub_sin (epsRad juneDate1800) D
  have hhalf1 : (0.000196 : ℝ) ≤ (epsRad juneDate1800 - D) / 2 := by
    linarith only [hε1, hD2]
  have hhalf2 : (epsRad juneDate1800 - D) / 2 ≤ 0.000247 := by
    linarith only [hε2, hD1]
  have hsinhalf := sin_sandwich _ 0.000196 0.000247 (by norm_num) hhalf1 hhalf2
    (by norm_num)
  have hsinhalf1 : (0.000195 : ℝ) ≤ Real.sin ((epsRad juneDate1800 - D) / 2) :=
    le_trans (by norm_num) hsinhalf.1
  have hm : |(epsRad juneDate1800 + D) / 2| ≤ 0.40936 := by
    rw [abs_of_nonneg (by linarith only [hε1, hD1])]
    linarith only [hε2, hD2]
  have hcosm := cos_sandwich_lb _ 0.40936 hm (by norm_num)
  have hcosm1 : (0.91474 : ℝ) ≤ Real.cos ((epsRad juneDate1800 + D) / 2) :=
    le_trans (by norm_num) hcosm
  have hsinhalfub := Real.sin_le_one ((epsRad juneDate1800 - D) / 2)
  have hcosmub := Real.cos_le_one ((epsRad juneDate1800 + D) / 2)
  have hdm := mul_bounds_pos (Real.sin ((epsRad juneDate1800 - D) / 2))
    (Real.cos ((epsRad juneDate1800 + D) / 2)) 0.000195 1 0.91474 1
    hsinhalf1 hsinhalfub hcosm1 hcosmub (by norm_num) (by norm_num)
  have hdiff : (0.000356 : ℝ) ≤
      Real.sin (epsRad juneDate1800) - Real.sin D := by
    rw [hidm]; linarith only [hdm.1]
  -- assemble the product bound
  have hse1 : Real.sin (epsRad juneDate1800) ≤ 1 := Real.sin_le_one _
  have hse0 : 0 ≤ Real.sin (epsRad juneDate1800) := by
    apply Real.sin_nonneg_of_nonneg_of_le_pi (by linarith only [hε1])
    linarith only [hε2, hp1]
  have hprod : Real.sin D <
      Real.sin (epsRad juneDate1800) * Real.sin (lambdaRad juneDate1800) :=
    product_exceeds_helper _ _ _ hdiff hsinlam hse1 hse0
  -- conclude through arcsin
  have hDmem : D ∈ Set.Icc (-(Real.pi / 2)) (Real.pi / 2) := by
    constructor
    · linarith only [hD1, hp1]
    · linarith only [hD2, hp1]
  have hsl0 : (0 : ℝ) ≤ Real.sin (lambdaRad juneDate1800) := by
    linarith only [hsinlam]
  have hym := mul_bounds_pos (Real.sin (epsRad juneDate1800))
    (Real.sin (lambdaRad juneDate1800)) 0 1 0 1 hse0 hse1 hsl0 hsinlam1
    (by norm_num) (by norm_num)
  have hymem : Real.sin (epsRad juneDate1800) *
      Real.sin (lambdaRad juneDate1800) ∈ Set.Icc (-1 : ℝ) 1 := by
    constructor
    · linarith [hym.1]
    · linarith [hym.2]
  have harc := (Real.lt_arcsin_iff_sin_lt hDmem hymem).2 hprod
  have hdecl : (solarPosition juneDate1800).declination =
      Real.arcsin (Real.sin (epsRad juneDate1800) *
        Real.sin (lambdaRad juneDate1800)) := rfl
  intro hcon
  rw [abs_le, hdecl] at hcon
  linarith only [hcon.2, harc]

set_option maxHeartbeats 1000000 in
/-- C2: the solar module under `src/` ignores the spec's injected
axial tilt.  At J2000.0 noon the spec-modelled tilt-parameterized
variant returns declination 0 for tilt 0, while the module's own
`solarPosition` (tilt-free, hard-coded Meeus obliquity) returns a
declination below -(1/4) rad at the same instant, and even at the
default tilt 23.44 the two obliquities differ, because the module
hard-codes the polynomial constant 23.439291, not 23.44. -/
theorem solarPosition_ignores_injected_tilt :
    (solarPositionTilt j2000Noon 0).declination = 0 ∧
    (solarPosition j2000Noon).declination < -(1/4) ∧
    (solarPosition j2000Noon).obliquity ≠
      (solarPositionTilt j2000Noon 23.44).obliquity := by
  have hp1 := Real.pi_gt_d6
  have hp2 := Real.pi_lt_d6
  refine ⟨?_, ?_, ?_⟩
  · simp [solarPositionTilt, Real.arcsin_zero]
  · -- sin M
    have hredM : Real.sin (Mrad j2000Noon) =
        -Real.sin (((360 - Mdeg j2000Noon : ℚ) : ℝ) * (Real.pi / 180)) :=
      sin_reduce_even _ _ 2 ⟨1, by ring⟩
        (by unfold Mrad DEG_TO_RAD; push_cast; ring)
    have hMq : (360 - Mdeg j2000Noon : ℚ) = 247089 / 100000 := by
      rw [Mdeg_j2000Noon]; norm_num
    have hs1 := sin_deg_bounds (360 - Mdeg j2000Noon) (247089 / 100000)
      (247089 / 100000) 0.0431251 0.0431252 (le_of_eq hMq.symm) (le_of_eq hMq)
      (by norm_num) (by norm_num) (by norm_num) (by norm_num) (by norm_num)
    have hsM1 : (-0.043113 : ℝ) ≤ Real.sin (Mrad j2000Noon) := by
      rw [hredM]
      have := le_trans hs1.2 (by norm_num : (0.0431252 : ℝ) -
        0.0431251 ^ 3 / 6 + 0.0431252 ^ 4 * (5 / 96) ≤ 0.043113)
      linarith
    have hsM2 : Real.sin (Mrad j2000Noon) ≤ -0.043111 := by
      rw [hredM]
      have := le_trans (by norm_num : (0.043111 : ℝ) ≤ 0.0431251 -
        0.0431252 ^ 3 / 6 - 0.0431252 ^ 4 * (5 / 96)) hs1.1
      linarith
    -- sin 2M
    have hred2 : Real.sin (2 * Mrad j2000Noon) =
        -Real.sin (((720 - 2 * Mdeg j2000Noon : ℚ) : ℝ) * (Real.pi / 180)) :=
      sin_reduce_even _ _ 4 ⟨2, by ring⟩
        (by unfold Mrad DEG_TO_RAD; push_cast; ring)
    have hM2q : (720 - 2 * Mdeg j2000Noon : ℚ) = 247089 / 50000 := by
      rw [Mdeg_j2000Noon]; norm_num
    have hs2 := sin_deg_bounds (720 - 2 * Mdeg j2000Noon) (247089 / 50000)
      (247089 / 50000) 0.0862503 0.0862504 (le_of_eq hM2q.symm) (le_of_eq hM2q)
      (by norm_num) (by norm_num) (by norm_num) (by norm_num) (by norm_num)
    have hs2M1 : (-0.086147 : ℝ) ≤ Real.sin (2 * Mrad j2000Noon) := by
      rw [hred2]
      have := le_trans hs2.2 (by norm_num : (0.0862504 : ℝ) -
        0.0862503 ^ 3 / 6 + 0.0862504 ^ 4 * (5 / 96) ≤ 0.086147)
      linarith
    have hs2M2 : Real.sin (2 * Mrad j2000Noon) ≤ -0.086140 := by
      rw [hred2]
      have := le_trans (by norm_num : (0.086140 : ℝ) ≤ 0.0862503 -
        0.0862504 ^ 3 / 6 - 0.0862504 ^ 4 * (5 / 96)) hs2.1
      linarith
    -- sin 3M
    have hred3 : Real.sin (3 * Mrad j2000Noon) =
        -Real.sin (((1080 - 3 * Mdeg j2000Noon : ℚ) : ℝ) * (Real.pi / 180)) :=
      sin_reduce_even _ _ 6 ⟨3, by ring⟩
        (by unfold Mrad DEG_TO_RAD; push_cast; ring)
    have hM3q : (1080 - 3 * Mdeg j2000Noon : ℚ) = 741267 / 100000 := by
      rw [Mdeg_j2000Noon]; norm_num
    have hs3 := sin_deg_bounds (1080 - 3 * Mdeg j2000Noon) (741267 / 100000)
      (741267 / 100000) 0.1293754 0.1293756 (le_of_eq hM3q.symm) (le_of_eq hM3q)
      (by norm_num) (by norm_num) (by norm_num) (by norm_num) (by norm_num)
    have hs3M1 : (-0.129030 : ℝ) ≤ Real.sin (3 * Mrad j2000Noon) := by
      rw [hred3]
      have := le_trans hs3.2 (by norm_num : (0.1293756 : ℝ) -
        0.1293754 ^ 3 / 6 + 0.1293756 ^ 4 * (5 / 96) ≤ 0.129030)
      linarith
    have hs3M2 : Real.sin (3 * Mrad j2000Noon) ≤ -0.128999 := by
      rw [hred3]
      have := le_trans (by norm_num : (0.128999 : ℝ) ≤ 0.1293754 -
        0.1293756 ^ 3 / 6 - 0.1293756 ^ 4 * (5 / 96)) hs3.1
      linarith
    -- sin omega
    have hredW : Real.sin (omegaRad j2000Noon) =
        Real.sin (((180 - omegaDeg j2000Noon : ℚ) : ℝ) * (Real.pi / 180)) :=
      sin_reduce_odd _ _ 1 ⟨0, by ring⟩
        (by unfold omegaRad DEG_TO_RAD; push_cast; ring)
    have hWq : (180 - omegaDeg j2000Noon : ℚ) = 5496 / 100 := by
      rw [omegaDeg_j2000Noon]; norm_num
    have hsww := sin_deg_bounds (180 - omegaDeg j2000Noon) (5496 / 100)
      (5496 / 100) 0.9592327 0.9592331 (le_of_eq hWq.symm) (le_of_eq hWq)
      (by norm_num) (by norm_num) (by norm_num) (by norm_num) (by norm_num)
    have hsw1 : (0.768034 : ℝ) ≤ Real.sin (omegaRad j2000Noon) := by
      rw [hredW]; exact le_trans (by norm_num) hsww.1
    have hsw2 : Real.sin (omegaRad j2000Noon) ≤ 0.856227 := by
      rw [hredW]; exact le_trans hsww.2 (by norm_num)
    -- equation of center
    have hc1 : ((1.914602 - 0.004817 * Tcent j2000Noon -
        0.000014 * Tcent j2000Noon * Tcent j2000Noon : ℚ) : ℝ) = 1.914602 := by
      rw [Tcent_j2000Noon]; push_cast; norm_num
    have hc2 : ((0.019993 - 0.000101 * Tcent j2000Noon : ℚ) : ℝ) = 0.019993 := by
      rw [Tcent_j2000Noon]; push_cast; norm_num
    have hCeq : eqCenterC j2000Noon =
        ((1.914602 - 0.004817 * Tcent j2000Noon -
          0.000014 * Tcent j2000Noon * Tcent j2000Noon : ℚ) : ℝ) *
            Real.sin (Mrad j2000Noon) +
          ((0.019993 - 0.000101 * Tcent j2000Noon : ℚ) : ℝ) *
            Real.sin (2 * Mrad j2000Noon) +
          0.000289 * Real.sin (3 * Mrad j2000Noon) := rfl
    have hCb1 : (-0.084305 : ℝ) ≤ eqCenterC j2000Noon := by
      rw [hCeq, hc1, hc2]
      nlinarith [hsM1, hs2M1, hs3M1]
    have hCb2 : eqCenterC j2000Noon ≤ -0.084300 := by
      rw [hCeq, hc1, hc2]
      nlinarith [hsM2, hs2M2, hs3M2]
    -- lambda
    have hL0c : ((L0deg j2000Noon : ℚ) : ℝ) = 280.46646 := by
      rw [L0deg_j2000Noon]; push_cast; norm_num
    have hlameq : lambdaDeg j2000Noon =
        ((L0deg j2000Noon : ℚ) : ℝ) + eqCenterC j2000Noon - 0.00569 -
          0.00478 * Real.sin (omegaRad j2000Noon) := rfl
    have hlam1 : (280.3723 : ℝ) ≤ lambdaDeg j2000Noon := by
      rw [hlameq, hL0c]; linarith only [hCb1, hsw2]
    have hlam2 : lambdaDeg j2000Noon ≤ 280.3728 := by
      rw [hlameq, hL0c]; linarith only [hCb2, hsw1]
    -- sin lambda via the third-quadrant cosine
    have h32 : Real.cos (lambdaRad j2000Noon - 3 * Real.pi / 2) =
        -Real.sin (lambdaRad j2000Noon) := by
      rw [Real.cos_sub,
        show (3 : ℝ) * Real.pi / 2 = Real.pi + Real.pi / 2 by ring]
      simp [Real.cos_add, Real.sin_add]
    have hueq2 : lambdaRad j2000Noon - 3 * Real.pi / 2 =
        (lambdaDeg j2000Noon - 270) * (Real.pi / 180) := by
      unfold lambdaRad DEG_TO_RAD; ring
    have hpim := mul_bounds_pos (lambdaDeg j2000Noon - 270) (Real.pi / 180)
      10.3723 10.3728 (3.141592 / 180) (3.141593 / 180)
      (by linarith only [hlam1]) (by linarith only [hlam2])
      (by linarith only [hp1]) (by linarith only [hp2])
      (by norm_num) (by norm_num)
    have hub : |lambdaRad j2000Noon - 3 * Real.pi / 2| ≤ 0.18105 := by
      rw [hueq2, abs_of_nonneg (by linarith only [hpim.1])]
      linarith only [hpim.2]
    have hcosu := cos_sandwich_lb _ 0.18105 hub (by norm_num)
    have hsinlam : Real.sin (lambdaRad j2000Noon) ≤ -0.98355 := by
      have h := h32
      nlinarith [hcosu]
    have hsinlam0 : (-1 : ℝ) ≤ Real.sin (lambdaRad j2000Noon) :=
      Real.neg_one_le_sin _
    -- sin eps
    have hε := epsRad_bounds j2000Noon
    have hsε := sin_sandwich (epsRad j2000Noon) 0.4085 0.4096 (by norm_num)
      hε.1 hε.2 (by norm_num)
    have hsε1 : (0.39558 : ℝ) ≤ Real.sin (epsRad j2000Noon) := by
      exact le_trans (by norm_num) hsε.1
    have hsε2 : Real.sin (epsRad j2000Noon) ≤ 1 := Real.sin_le_one _
    -- the product is well below sin(-(1/4))
    have hprod := mul_bounds_pos_neg (Real.sin (epsRad j2000Noon))
      (Real.sin (lambdaRad j2000Noon)) 0.39558 1 (-1) (-0.98355)
      hsε1 hsε2 hsinlam0 hsinlam (by norm_num) (by norm_num)
    have hsin14 : Real.sin (-(1/4) : ℝ) > -0.26 := by
      rw [Real.sin_neg]
      have := Real.sin_lt (show (0:ℝ) < 1/4 by norm_num)
      linarith
    have hxmem : Real.sin (epsRad j2000Noon) * Real.sin (lambdaRad j2000Noon) ∈
        Set.Icc (-1 : ℝ) 1 := by
      constructor
      · nlinarith [hprod.1]
      · nlinarith [hprod.2]
    have hymem : (-(1/4) : ℝ) ∈ Set.Icc (-(Real.pi / 2)) (Real.pi / 2) := by
      constructor <;> [linarith only [hp1]; linarith only [hp1]]
    have hlt : Real.sin (epsRad j2000Noon) * Real.sin (lambdaRad j2000Noon) <
        Real.sin (-(1/4) : ℝ) := by
      nlinarith [hprod.2, hsin14]
    exact (Real.arcsin_lt_iff_lt_sin hxmem hymem).2 hlt
  · intro heq
    have hεeq1 : (solarPosition j2000Noon).obliquity =
        (((eps0deg j2000Noon : ℚ) : ℝ) +
          0.00256 * Real.cos (omegaRad j2000Noon)) * (Real.pi / 180) := rfl
    have hεeq2 : (solarPositionTilt j2000Noon 23.44).obliquity =
        (23.44 + 0.00256 * (23.44 / 23.44) *
          Real.cos (omegaRad j2000Noon)) * (Real.pi / 180) := rfl
    have heps0 : eps0deg j2000Noon = 23439291 / 1000000 := by
      unfold eps0deg
      rw [Tcent_j2000Noon]
      norm_num
    have he0 : ((eps0deg j2000Noon : ℚ) : ℝ) = 23.439291 := by
      rw [heps0]; push_cast; norm_num
    rw [hεeq1, hεeq2, he0] at heq
    have hne : (Real.pi / 180 : ℝ) ≠ 0 :=
      div_ne_zero Real.pi_ne_zero (by norm_num)
    have heq2 := mul_right_cancel₀ hne heq
    norm_num at heq2

/-- C9: For every Date, `julianDay(date)` equals the Meeus Gregorian
formula: with January/February shifted into the previous year,
`A = floor(Y/100)` and `B = 2 - A + floor(A/4)`, the result is
`floor(365.25 (Y+4716)) + floor(30.6001 (M+1)) + day + dayFraction + B
- 1524.5`, where `dayFraction` encodes the UTC hours, minutes, seconds
and milliseconds as a fraction of a day. -/
theorem julianDay_meeus_formula (d : Date) :
    julianDay d =
      (⌊(365.25 : ℚ) *
          (((if d.month + 1 ≤ 2 then d.year - 1 else d.year) : ℚ) + 4716)⌋ : ℚ) +
        (⌊(30.6001 : ℚ) *
          (((if d.month + 1 ≤ 2 then d.month + 13 else d.month + 1) : ℚ) + 1)⌋ : ℚ) +
        (d.day : ℚ) +
        ((d.hour : ℚ) / 24 + (d.minute : ℚ) / 1440 + (d.second : ℚ) / 86400 +
          (d.ms : ℚ) / 86400000) +
        ((2 - ⌊((if d.month + 1 ≤ 2 then d.year - 1 else d.year : ℤ) : ℚ) / 100⌋ +
            ⌊((⌊((if d.month + 1 ≤ 2 then d.year - 1 else d.year : ℤ) : ℚ) / 100⌋ : ℚ)) / 4⌋ : ℤ) : ℚ) -
        1524.5 := by
  unfold julianDay
  by_cases hm : d.month + 1 ≤ 2
  · simp only [if_pos hm]
    rw [show d.month + 1 + 12 = d.month + 13 by ring]
    push_cast
    ring
  · simp only [if_neg hm]
    push_cast
    ring

/-- C6: `sunriseSunset` depends only on the UTC calendar day of the
query instant (declination and equation of time are evaluated at 12:00
UTC of that day), so two Instants with the same UTC Y/M/D fields give
identical results. -/
theorem sunriseSunset_same_calendar_day (d1 d2 : Date) (latDeg lonDeg : ℝ)
    (hy : d1.year = d2.year) (hm : d1.month = d2.month)
    (hd : d1.day = d2.day) :
    sunriseSunset d1 latDeg lonDeg = sunriseSunset d2 latDeg lonDeg := by
  have hn : noonOf d1 = noonOf d2 := by simp [noonOf, hy, hm, hd]
  have hb : baseDateMs d1 = baseDateMs d2 := by simp [baseDateMs, hy, hm, hd]
  simp only [sunriseSunset, ssDenominator, cosHA, haMinutes, declNoon,
    solarNoonMinutes, eotMinutes, solarNoonMs, hn, hb]

/-- Witness for C6 at two concrete instants of 2024-06-20. -/
theorem sunriseSunset_same_calendar_day_witness :
    (Date.mk 2024 5 20 3 15 0 0).year = (Date.mk 2024 5 20 21 45 30 500).year ∧
    (Date.mk 2024 5 20 3 15 0 0).month = (Date.mk 2024 5 20 21 45 30 500).month ∧
    (Date.mk 2024 5 20 3 15 0 0).day = (Date.mk 2024 5 20 21 45 30 500).day ∧
    sunriseSunset (Date.mk 2024 5 20 3 15 0 0) 48.8 2.3 =
      sunriseSunset (Date.mk 2024 5 20 21 45 30 500) 48.8 2.3 :=
  ⟨rfl, rfl, rfl,
    sunriseSunset_same_calendar_day _ _ 48.8 2.3 rfl rfl rfl⟩

/-- C7: `sunDirectionVector` returns a vector of magnitude exactly 1
(hence within 1e-9), with components `x = cos δ cos H`, `y = sin δ`,
`z = cos δ sin H` for `H = GMST - rightAscension`. -/
theorem sunDirectionVector_unit (d : Date) :
    (sunDirectionVector d).x =
      Real.cos (solarPosition d).declination * Real.cos (hourAngleOf d) ∧
    (sunDirectionVector d).y = Real.sin (solarPosition d).declination ∧
    (sunDirectionVector d).z =
      Real.cos (solarPosition d).declination * Real.sin (hourAngleOf d) ∧
    (sunDirectionVector d).length = 1 ∧
    |(sunDirectionVector d).length - 1| ≤ 1e-9 := by
  set δ := (solarPosition d).declination
  set H := hourAngleOf d
  have hsum : (Real.cos δ * Real.cos H) ^ 2 + (Real.sin δ) ^ 2 +
      (Real.cos δ * Real.sin H) ^ 2 = 1 := by
    have h1 := Real.sin_sq_add_cos_sq δ
    have h2 := Real.sin_sq_add_cos_sq H
    nlinarith
  have hlen : (Vector3.mk (Real.cos δ * Real.cos H) (Real.sin δ)
      (Real.cos δ * Real.sin H)).length = 1 := by
    rw [Vector3.length, hsum, Real.sqrt_one]
  have hne : ¬((Vector3.mk (Real.cos δ * Real.cos H) (Real.sin δ)
      (Real.cos δ * Real.sin H)).length = 0) := by rw [hlen]; norm_num
  have hv : sunDirectionVector d =
      ⟨Real.cos δ * Real.cos H, Real.sin δ, Real.cos δ * Real.sin H⟩ := by
    show Vector3.normalize _ = _
    rw [Vector3.normalize]
    simp only [hne, if_false, hlen]
    simp
  refine ⟨by rw [hv], by rw [hv], by rw [hv], ?_, ?_⟩
  · rw [hv]; exact hlen
  · rw [hv, hlen]; norm_num

/-- C10: whenever `sunriseSunset` returns non-null sunrise and sunset,
the span `sunset - sunrise` equals exactly `dayLength` hours
(`dayLength * 3600000` milliseconds) in exact real arithmetic. -/
theorem sunriseSunset_daylength_consistent (d : Date) (latDeg lonDeg : ℝ)
    (r s : ℝ) (hr : (sunriseSunset d latDeg lonDeg).sunrise = some r)
    (hs : (sunriseSunset d latDeg lonDeg).sunset = some s) :
    s - r = (sunriseSunset d latDeg lonDeg).dayLength * 3600000 := by
  unfold sunriseSunset at hr hs ⊢
  split_ifs at hr hs ⊢
  all_goals simp_all
  rw [← hr, ← hs]
  ring

/-- Witness for C10 at a concrete date and the equator. -/
theorem sunriseSunset_daylength_consistent_witness :
    (sunriseSunset (Date.mk 1999 11 31 23 59 59 999) 0 0).sunrise =
      some ((baseDateMs (Date.mk 1999 11 31 23 59 59 999) : ℝ) +
        (solarNoonMinutes (Date.mk 1999 11 31 23 59 59 999) 0 -
          haMinutes (Date.mk 1999 11 31 23 59 59 999) 0) * 60000) ∧
    (sunriseSunset (Date.mk 1999 11 31 23 59 59 999) 0 0).sunset =
      some ((baseDateMs (Date.mk 1999 11 31 23 59 59 999) : ℝ) +
        (solarNoonMinutes (Date.mk 1999 11 31 23 59 59 999) 0 +
          haMinutes (Date.mk 1999 11 31 23 59 59 999) 0) * 60000) ∧
    ((baseDateMs (Date.mk 1999 11 31 23 59 59 999) : ℝ) +
        (solarNoonMinutes (Date.mk 1999 11 31 23 59 59 999) 0 +
          haMinutes (Date.mk 1999 11 31 23 59 59 999) 0) * 60000) -
      ((baseDateMs (Date.mk 1999 11 31 23 59 59 999) : ℝ) +
        (solarNoonMinutes (Date.mk 1999 11 31 23 59 59 999) 0 -
          haMinutes (Date.mk 1999 11 31 23 59 59 999) 0) * 60000) =
      (sunriseSunset (Date.mk 1999 11 31 23 59 59 999) 0 0).dayLength *
        3600000 := by
  obtain ⟨h1, h2, h3⟩ := equator_main_branch (Date.mk 1999 11 31 23 59 59 999)
  have heq := sunriseSunset_main_eq (Date.mk 1999 11 31 23 59 59 999) 0 0 h1 h2 h3
  have hr : (sunriseSunset (Date.mk 1999 11 31 23 59 59 999) 0 0).sunrise =
      some ((baseDateMs (Date.mk 1999 11 31 23 59 59 999) : ℝ) +
        (solarNoonMinutes (Date.mk 1999 11 31 23 59 59 999) 0 -
          haMinutes (Date.mk 1999 11 31 23 59 59 999) 0) * 60000) := by
    rw [heq]
  have hs : (sunriseSunset (Date.mk 1999 11 31 23 59 59 999) 0 0).sunset =
      some ((baseDateMs (Date.mk 1999 11 31 23 59 59 999) : ℝ) +
        (solarNoonMinutes (Date.mk 1999 11 31 23 59 59 999) 0 +
          haMinutes (Date.mk 1999 11 31 23 59 59 999) 0) * 60000) := by
    rw [heq]
  exact ⟨hr, hs,
    sunriseSunset_daylength_consistent (Date.mk 1999 11 31 23 59 59 999)
      0 0 _ _ hr hs⟩

/-- C5: when the sun both rises and sets (the pole guard and both
`cos H` range guards pass), `sunriseSunset` returns
`sunrise = solarNoon - haMinutes` and `sunset = solarNoon + haMinutes`
minutes after UTC midnight of the query's calendar day, where
`haMinutes = acos(cos H)` converted to degrees times 4 (degrees to
minutes), solar noon is `720 - lon*4 - eot` minutes after midnight, and
`dayLength = 2 * haMinutes / 60` hours. -/
theorem sunriseSunset_main_formulas (d : Date) (latDeg lonDeg : ℝ)
    (h1 : 1e-10 ≤ |ssDenominator d latDeg|)
    (h2 : -1 ≤ cosHA d latDeg) (h3 : cosHA d latDeg ≤ 1) :
    sunriseSunset d latDeg lonDeg =
      ⟨some ((baseDateMs d : ℝ) +
          ((720 - lonDeg * 4 - eotMinutes d) -
            Real.arccos (cosHA d latDeg) * (180 / Real.pi) * 4) * 60000),
        some ((baseDateMs d : ℝ) +
          ((720 - lonDeg * 4 - eotMinutes d) +
            Real.arccos (cosHA d latDeg) * (180 / Real.pi) * 4) * 60000),
        solarNoonMs d lonDeg,
        2 * (Real.arccos (cosHA d latDeg) * (180 / Real.pi) * 4) / 60⟩ := by
  rw [sunriseSunset_main_eq d latDeg lonDeg h1 h2 h3]
  simp only [haMinutes, RAD_TO_DEG, solarNoonMinutes]

/-- Witness for C5 at a concrete date and the equator. -/
theorem sunriseSunset_main_formulas_witness :
    1e-10 ≤ |ssDenominator (Date.mk 2024 0 1 0 0 0 0) 0| ∧
    -1 ≤ cosHA (Date.mk 2024 0 1 0 0 0 0) 0 ∧
    cosHA (Date.mk 2024 0 1 0 0 0 0) 0 ≤ 1 ∧
    sunriseSunset (Date.mk 2024 0 1 0 0 0 0) 0 0 =
      ⟨some ((baseDateMs (Date.mk 2024 0 1 0 0 0 0) : ℝ) +
          ((720 - 0 * 4 - eotMinutes (Date.mk 2024 0 1 0 0 0 0)) -
            Real.arccos (cosHA (Date.mk 2024 0 1 0 0 0 0) 0) *
              (180 / Real.pi) * 4) * 60000),
        some ((baseDateMs (Date.mk 2024 0 1 0 0 0 0) : ℝ) +
          ((720 - 0 * 4 - eotMinutes (Date.mk 2024 0 1 0 0 0 0)) +
            Real.arccos (cosHA (Date.mk 2024 0 1 0 0 0 0) 0) *
              (180 / Real.pi) * 4) * 60000),
        solarNoonMs (Date.mk 2024 0 1 0 0 0 0) 0,
        2 * (Real.arccos (cosHA (Date.mk 2024 0 1 0 0 0 0) 0) *
          (180 / Real.pi) * 4) / 60⟩ := by
  obtain ⟨h1, h2, h3⟩ := equator_main_branch (Date.mk 2024 0 1 0 0 0 0)
  exact ⟨h1, h2, h3,
    sunriseSunset_main_formulas (Date.mk 2024 0 1 0 0 0 0) 0 0 h1 h2 h3⟩

/-- `jsTruncR` does not go below an integer lower bound. -/
theorem le_jsTruncR (n : ℤ) (x : ℝ) (h : (n : ℝ) ≤ x) : n ≤ jsTruncR x := by
  unfold jsTruncR
  split_ifs
  · exact Int.le_floor.mpr h
  · exact_mod_cast le_trans h (Int.le_ceil x)

/-- `jsTruncR` does not exceed an integer upper bound. -/
theorem jsTruncR_le (n : ℤ) (x : ℝ) (h : x ≤ (n : ℝ)) : jsTruncR x ≤ n := by
  unfold jsTruncR
  split_ifs
  · exact_mod_cast le_trans (Int.floor_le x) h
  · exact Int.ceil_le.mpr h

/-- Invariant of the bisection loop of `findEquinoxOrSolstice`: after
`n` iterations from a bracket `(a, b)`, the bracket is still ordered,
still inside `[a, b]`, and its width is `(b - a) / 2 ^ n`. -/
theorem bisect_iterate_bounds (t : ℚ) (a b : ℝ) (hab : a ≤ b) (n : ℕ) :
    a ≤ ((bisectStep t)^[n] (a, b)).1 ∧
    ((bisectStep t)^[n] (a, b)).1 ≤ ((bisectStep t)^[n] (a, b)).2 ∧
    ((bisectStep t)^[n] (a, b)).2 ≤ b ∧
    ((bisectStep t)^[n] (a, b)).2 - ((bisectStep t)^[n] (a, b)).1 =
      (b - a) / 2 ^ n := by
  induction n with
  | zero => simpa using hab
  | succ n ih =>
    obtain ⟨h1, h2, h3, h4⟩ := ih
    rw [Function.iterate_succ_apply']
    set p := (bisectStep t)^[n] (a, b) with hp
    have hpow : (2 : ℝ) ^ (n + 1) = 2 ^ n * 2 := pow_succ 2 n
    unfold bisectStep
    dsimp only
    split_ifs <;> constructor
    · linarith
    · refine ⟨by linarith, by linarith, ?_⟩
      have hh : p.2 - (p.1 + p.2) / 2 = (p.2 - p.1) / 2 := by ring
      rw [hh, h4, hpow, ← div_div]
    · linarith
    · refine ⟨by linarith, by linarith, ?_⟩
      have hh : (p.1 + p.2) / 2 - p.1 = (p.2 - p.1) / 2 := by ring
      rw [hh, h4, hpow, ← div_div]

/-- C8: for every year and target longitude in `{0, 90, 180, 270}`,
`findEquinoxOrSolstice` seeds a plus/minus 3-day window around the
approximate calendar date (Mar 20, Jun 21, Sep 22, Dec 21, 12:00 UTC),
performs 25 bisection iterations, and returns the final bracket
midpoint (truncated to whole milliseconds by `new Date`): an instant
inside the 6-day window, the final bracket being under a minute wide. -/
theorem findEquinoxOrSolstice_window (year : ℤ) (t : ℚ)
    (_ht : t = 0 ∨ t = 90 ∨ t = 180 ∨ t = 270) :
    (t = 0 → approx t = (2, 20)) ∧
    (t = 90 → approx t = (5, 21)) ∧
    (t = 180 → approx t = (8, 22)) ∧
    (t = 270 → approx t = (11, 21)) ∧
    centerMs year t = utcMs year (approx t).1 (approx t).2 12 ∧
    THREE_DAYS_MS = 3 * 24 * 60 * 60 * 1000 ∧
    findEquinoxOrSolstice year t =
      ((jsTruncR ((((bisectStep t)^[25] ((centerMs year t : ℝ) -
          (THREE_DAYS_MS : ℝ), (centerMs year t : ℝ) + (THREE_DAYS_MS : ℝ))).1 +
        ((bisectStep t)^[25] ((centerMs year t : ℝ) - (THREE_DAYS_MS : ℝ),
          (centerMs year t : ℝ) + (THREE_DAYS_MS : ℝ))).2) / 2) : ℤ) : ℝ) ∧
    (centerMs year t : ℝ) - (THREE_DAYS_MS : ℝ) ≤
      findEquinoxOrSolstice year t ∧
    findEquinoxOrSolstice year t ≤
      (centerMs year t : ℝ) + (THREE_DAYS_MS : ℝ) ∧
    ((bisectStep t)^[25] ((centerMs year t : ℝ) - (THREE_DAYS_MS : ℝ),
        (centerMs year t : ℝ) + (THREE_DAYS_MS : ℝ))).2 -
      ((bisectStep t)^[25] ((centerMs year t : ℝ) - (THREE_DAYS_MS : ℝ),
        (centerMs year t : ℝ) + (THREE_DAYS_MS : ℝ))).1 =
      518400000 / 2 ^ 25 ∧
    (518400000 : ℝ) / 2 ^ 25 < 60000 := by
  set c : ℝ := (centerMs year t : ℝ) with hc
  have hab : c - (THREE_DAYS_MS : ℝ) ≤ c + (THREE_DAYS_MS : ℝ) := by
    have : (0 : ℝ) ≤ (THREE_DAYS_MS : ℝ) := by norm_num [THREE_DAYS_MS]
    linarith
  obtain ⟨h1, h2, h3, h4⟩ := bisect_iterate_bounds t _ _ hab 25
  set p := (bisectStep t)^[25] (c - (THREE_DAYS_MS : ℝ), c + (THREE_DAYS_MS : ℝ))
    with hpdef
  have hmidlo : c - (THREE_DAYS_MS : ℝ) ≤ (p.1 + p.2) / 2 := by linarith
  have hmidhi : (p.1 + p.2) / 2 ≤ c + (THREE_DAYS_MS : ℝ) := by linarith
  have hcast_lo : ((centerMs year t - THREE_DAYS_MS : ℤ) : ℝ) =
      c - (THREE_DAYS_MS : ℝ) := by push_cast; ring
  have hcast_hi : ((centerMs year t + THREE_DAYS_MS : ℤ) : ℝ) =
      c + (THREE_DAYS_MS : ℝ) := by push_cast; ring
  have htr_lo : centerMs year t - THREE_DAYS_MS ≤ jsTruncR ((p.1 + p.2) / 2) :=
    le_jsTruncR _ _ (by rw [hcast_lo]; exact hmidlo)
  have htr_hi : jsTruncR ((p.1 + p.2) / 2) ≤ centerMs year t + THREE_DAYS_MS :=
    jsTruncR_le _ _ (by rw [hcast_hi]; exact hmidhi)
  have hfind : findEquinoxOrSolstice year t =
      ((jsTruncR ((p.1 + p.2) / 2) : ℤ) : ℝ) := by
    rw [findEquinoxOrSolstice]
  have hwidth : p.2 - p.1 = 518400000 / 2 ^ 25 := by
    rw [h4]
    norm_num [THREE_DAYS_MS]
  refine ⟨by intro h; simp [approx, h], by intro h; simp [approx, h],
    by intro h; simp [approx, h], by intro h; simp [approx, h],
    rfl, rfl, hfind, ?_, ?_, hwidth, by norm_num⟩
  · rw [hfind, ← hcast_lo]
    exact_mod_cast htr_lo
  · rw [hfind, ← hcast_hi]
    exact_mod_cast htr_hi

/-- Witness for C8: year 2024, June solstice target. -/
theorem findEquinoxOrSolstice_window_witness :
    ((90 : ℚ) = 0 ∨ (90 : ℚ) = 90 ∨ (90 : ℚ) = 180 ∨ (90 : ℚ) = 270) ∧
    (centerMs 2024 90 : ℝ) - (THREE_DAYS_MS : ℝ) ≤
      findEquinoxOrSolstice 2024 90 ∧
    findEquinoxOrSolstice 2024 90 ≤
      (centerMs 2024 90 : ℝ) + (THREE_DAYS_MS : ℝ) := by
  have ht : (90 : ℚ) = 0 ∨ (90 : ℚ) = 90 ∨ (90 : ℚ) = 180 ∨ (90 : ℚ) = 270 := by
    norm_num
  obtain ⟨-, -, -, -, -, -, -, hlo, hhi, -, -⟩ :=
    findEquinoxOrSolstice_window 2024 90 ht
  exact ⟨ht, hlo, hhi⟩

/-- C4: every inverse-trig call of the engine receives an argument in
`[-1, 1]`: the `asin` argument of `solarPosition` is a product of sines
and thus bounded by mathematics, the `asin` argument of
`sunElevationAzimuth` is explicitly clamped, and the `acos` argument of
`sunriseSunset` is protected by the branch guards.  (The declination
conjunct ties the bounded product to the actual call site.) -/
theorem inverse_trig_args_in_range (d : Date) (latDeg lonDeg : ℝ) :
    |Real.sin (epsRad d) * Real.sin (lambdaRad d)| ≤ 1 ∧
    (solarPosition d).declination =
      Real.arcsin (Real.sin (epsRad d) * Real.sin (lambdaRad d)) ∧
    -1 ≤ clampedSinElev d latDeg lonDeg ∧
    clampedSinElev d latDeg lonDeg ≤ 1 ∧
    (1e-10 ≤ |ssDenominator d latDeg| → -1 ≤ cosHA d latDeg →
      cosHA d latDeg ≤ 1 → |cosHA d latDeg| ≤ 1) := by
  refine ⟨?_, rfl, ?_, ?_, ?_⟩
  · rw [abs_mul]
    have h1 := abs_le.mpr ⟨Real.neg_one_le_sin (epsRad d), Real.sin_le_one _⟩
    have h2 := abs_le.mpr ⟨Real.neg_one_le_sin (lambdaRad d), Real.sin_le_one _⟩
    nlinarith [abs_nonneg (Real.sin (epsRad d)),
      abs_nonneg (Real.sin (lambdaRad d))]
  · exact le_max_left _ _
  · exact max_le (by norm_num) (min_le_left _ _)
  · intro _ hlo hhi
    exact abs_le.mpr ⟨hlo, hhi⟩

/-- Witness for C4 at a concrete date and observer, with the guard
hypotheses of the `acos` conjunct discharged. -/
theorem inverse_trig_args_in_range_witness :
    |Real.sin (epsRad (Date.mk 2025 2 20 6 30 0 0)) *
      Real.sin (lambdaRad (Date.mk 2025 2 20 6 30 0 0))| ≤ 1 ∧
    -1 ≤ clampedSinElev (Date.mk 2025 2 20 6 30 0 0) 0 0 ∧
    clampedSinElev (Date.mk 2025 2 20 6 30 0 0) 0 0 ≤ 1 ∧
    1e-10 ≤ |ssDenominator (Date.mk 2025 2 20 6 30 0 0) 0| ∧
    |cosHA (Date.mk 2025 2 20 6 30 0 0) 0| ≤ 1 := by
  obtain ⟨g1, g2, g3⟩ := equator_main_branch (Date.mk 2025 2 20 6 30 0 0)
  obtain ⟨a1, _, a3, a4, a5⟩ :=
    inverse_trig_args_in_range (Date.mk 2025 2 20 6 30 0 0) 0 0
  exact ⟨a1, a3, a4, g1, a5 g1 g2 g3⟩

end Ephemeris
